import Mathlib

/-!
# Verification of the California Climate Farmer simulation core (`src/game.js`)

This file gives a shallow embedding of the `CaliforniaClimateFarmer` class from
`src/game.js` and proves the frozen claims about it.

Modelling conventions:
* JavaScript numbers are modelled as `ℚ` (every value occurring in the claims is
  produced by exact decimal arithmetic); `Math.round` is Mathlib's `round`
  (both are `⌊x + 1/2⌋`), `Math.floor` is `Int.floor`.
* The external collaborators declared out of scope by the repository
  (`cell.js`, `crops.js`, `technology.js`, `events.js`, `utils.js`) are
  parameters of the development, gathered in an `Env` structure; functions that
  mutate an argument in place in JavaScript (grid cells, the researched-tech
  array) return the mutated value in their result record instead.
* `Math.random()` draws are modelled by an explicit stream of rationals
  (`rng : List ℚ`) carried in the state; each call consumes the head.
* The mutable `this` object is the `GameState` structure, threaded explicitly.
* UI calls (`this.ui.*`) and debug logging (`this.logger.*`) return nothing and
  do not influence the simulation state; they are omitted.
-/

/-- A crop record as read by `game.js` (`crop.id`, `crop.name`, `crop.basePrice`). -/
structure Crop where
  id : String
  name : String
  basePrice : ℚ
deriving DecidableEq

/-- The fields of an external `Cell` that `game.js` reads or writes. -/
structure Cell where
  crop : Crop
  soilHealth : ℚ
  irrigated : Bool
  fertilized : Bool
  harvestReady : Bool
  consecutivePlantings : ℕ
  expectedYield : ℚ
deriving DecidableEq

/-- The climate record of the game state. -/
structure Climate where
  avgTemp : ℚ
  rainfall : ℚ
  droughtProbability : ℚ
  floodProbability : ℚ
  heatwaveProbability : ℚ
deriving DecidableEq

/-- A technology record; `effects.soilHealth` is the only effect field `game.js`
reads directly (other effects go through the external `getTechEffectValue`). -/
structure TechEffects where
  soilHealth : Option ℚ
deriving DecidableEq

/-- A technology-tree entry. -/
structure Technology where
  id : String
  name : String
  cost : ℚ
  prerequisites : List String
  effects : TechEffects
  researched : Bool
deriving DecidableEq

/-- An entry of the bounded event log built by `addEvent`. -/
structure EventLogEntry where
  date : String
  message : String
  isAlert : Bool
deriving DecidableEq

/-- A pending event.  In JavaScript this is a duck-typed object; the fields below
are the union of those `game.js` reads or writes (`type`, `day`, `duration`,
`severity`, `message`, `isAlert`); fields a given event does not carry in
JavaScript (`undefined`) are represented by the defaults `0` / `""` / `false`. -/
structure PendingEvent where
  etype : String
  day : ℕ
  duration : ℚ
  severity : ℚ
  message : String
  isAlert : Bool
deriving DecidableEq

/-- The whole mutable state of a `CaliforniaClimateFarmer` instance
(the fields of `this` that the embedded methods touch), plus the
`rng` stream replacing `Math.random()`. -/
structure GameState where
  day : ℕ
  year : ℕ
  season : String
  seasonDay : ℕ
  balance : ℚ
  farmValue : ℚ
  farmHealth : ℚ
  waterReserve : ℚ
  paused : Bool
  overheadCostPerCell : ℚ
  annualInflationRate : ℚ
  gridSize : ℕ
  grid : List (List Cell)
  technologies : List Technology
  researchedTechs : List String
  events : List EventLogEntry
  pendingEvents : List PendingEvent
  marketPrices : List (String × ℚ)
  climate : Climate
  rng : List ℚ
  testMode : Bool
  autoTerminate : Bool
  testEndYear : ℕ
deriving DecidableEq

/-- The snapshot object `update` passes to `Events.generateRandomEvent`. -/
structure FarmSnapshot where
  climate : Climate
  day : ℕ
  season : String
  waterReserve : ℚ
  farmHealth : ℚ
  balance : ℚ
  researchedTechs : List String

/-- Result of `Events.applyRainEvent` (the callee also mutates the grid in place,
returned here as `grid`). -/
structure RainResult where
  grid : List (List Cell)
  waterReserve : ℚ
  message : String

/-- Result of `Events.applyDroughtEvent` / `Events.applyHeatwaveEvent`. -/
structure WeatherResult where
  skipped : Bool
  grid : List (List Cell)
  waterReserve : ℚ
  message : String
  continueEvent : Bool
  nextDuration : ℚ
  severity : ℚ

/-- Result of `Events.applyFrostEvent`. -/
structure FrostResult where
  grid : List (List Cell)
  message : String

/-- Result of `Events.applyMarketEvent`. -/
structure MarketResult where
  marketPrices : List (String × ℚ)
  message : String

/-- Result of `Events.applyPolicyEvent`. -/
structure PolicyResult where
  newBalance : ℚ
  message : String
  balanceChange : ℚ

/-- Result of `Events.applyTechnologyEvent` (which receives the researched-tech
array by reference and may mutate it; the possibly-updated array is returned). -/
structure TechEventResult where
  newBalance : ℚ
  message : String
  researchedTechs : List String

/-- Result of `cell.harvest`. -/
structure HarvestResult where
  value : ℚ
  cropName : String
  yieldPercentage : ℚ
deriving DecidableEq

/-- The external collaborators of `game.js` (declared out of scope by the
repository: `cell.js`, `crops.js`, `technology.js`, `events.js`, `utils.js`).
Cell methods take the cell last and return the updated cell. -/
structure Env where
  crops : List Crop
  getCropById : String → Option Crop
  cellUpdate : ℚ → List String → Cell → Cell × String
  cellPlant : Crop → Cell → Cell
  cellIrrigate : ℚ → Cell → Cell
  cellFertilize : ℚ → Cell → Cell
  cellHarvest : ℚ → ℚ → Cell → Cell × HarvestResult
  checkTechPrerequisites : Technology → List String → Bool
  getTechEffectValue : String → List String → ℚ → ℚ
  generateRandomEvent : FarmSnapshot → Option PendingEvent
  scheduleDrought : ℕ → ℚ → PendingEvent
  scheduleHeatwave : ℕ → PendingEvent
  scheduleFrost : ℕ → PendingEvent
  scheduleRain : ℕ → PendingEvent
  generatePolicyEvent : ℕ → ℚ → PendingEvent
  applyRainEvent : PendingEvent → List (List Cell) → ℚ → List String → RainResult
  applyDroughtEvent : PendingEvent → List (List Cell) → ℚ → List String → WeatherResult
  applyHeatwaveEvent : PendingEvent → List (List Cell) → ℚ → List String → WeatherResult
  applyFrostEvent : PendingEvent → List (List Cell) → List String → FrostResult
  applyMarketEvent : PendingEvent → List (String × ℚ) → List Crop → MarketResult
  applyPolicyEvent : PendingEvent → ℚ → PolicyResult
  applyTechnologyEvent : PendingEvent → ℚ → List String → TechEventResult
  calculateFarmHealth : List (List Cell) → ℚ → ℚ
  calculateFarmValue : List (List Cell) → List Technology → ℚ

/-- `Math.round`, kept inside `ℚ` (JavaScript numbers round to numbers). -/
def jsRound (x : ℚ) : ℚ := ((round x : ℤ) : ℚ)

/-- `Math.floor`, kept inside `ℚ`. -/
def jsFloor (x : ℚ) : ℚ := ((⌊x⌋ : ℤ) : ℚ)

/-- `Array.prototype.indexOf`: the index of the first occurrence, `-1` if absent. -/
def jsIndexOf (l : List String) (x : String) : ℤ :=
  if x ∈ l then (l.indexOf x : ℤ) else -1

/-- `this.marketPrices[id] || 1.0`: a missing entry (`undefined`) and the falsy
value `0` both fall back to `1.0`. -/
def jsPriceOr1 (prices : List (String × ℚ)) (id : String) : ℚ :=
  match prices.lookup id with
  | none => 1
  | some v => if v = 0 then 1 else v

/-- Draw one `Math.random()` value from the modelled stream (head of `rng`,
`0` once the stream is exhausted). -/
def draw (s : GameState) : ℚ × GameState :=
  (s.rng.headD 0, { s with rng := s.rng.tail })

/-- `addEvent(message, isAlert)`: prepend a log entry stamped with the current
season and year, evicting the oldest entry beyond 20. -/
def addEvent (s : GameState) (message : String) (isAlert : Bool) : GameState :=
  let entry : EventLogEntry :=
    ⟨s.season ++ ", Year " ++ toString s.year, message, isAlert⟩
  let es := entry :: s.events
  { s with events := if es.length > 20 then es.dropLast else es }

/-- `hasTechnology(techId)`: membership in `this.researchedTechs`. -/
def hasTechnology (s : GameState) (techId : String) : Bool :=
  s.researchedTechs.contains techId

/-- Read `this.grid[row][col]` (total: out-of-range indices, which would throw
in JavaScript and occur in no claim, yield an inert default cell). -/
def defaultCell : Cell := ⟨⟨"empty", "Empty Plot", 0⟩, 0, false, false, false, 0, 0⟩

def getCell (s : GameState) (row col : ℕ) : Cell :=
  (s.grid.getD row []).getD col defaultCell

/-- Write `this.grid[row][col] = c`. -/
def setCell (s : GameState) (row col : ℕ) (c : Cell) : GameState :=
  { s with grid := s.grid.set row ((s.grid.getD row []).set col c) }

/-- `payDailyOverhead()`: deduct `gridSize² × overheadCostPerCell`
unconditionally; going negative emits a debt alert. -/
def payDailyOverhead (s : GameState) : GameState :=
  let totalCells : ℚ := ((s.gridSize * s.gridSize : ℕ) : ℚ)
  let overhead := totalCells * s.overheadCostPerCell
  if s.balance ≥ overhead then
    { s with balance := s.balance - overhead }
  else
    addEvent { s with balance := s.balance - overhead }
      ("You went into debt paying overhead: -$" ++ toString overhead) true

/-- `updateFarm()`: update every cell through the external `cell.update`,
then log a notification for each cell whose status became "harvest-ready". -/
def updateFarm (env : Env) (s : GameState) : GameState :=
  let updated := s.grid.map (fun row =>
    row.map (fun c => env.cellUpdate s.waterReserve s.researchedTechs c))
  let s := { s with grid := updated.map (fun row => row.map Prod.fst) }
  let ready := (updated.enum.map (fun rowp =>
    rowp.2.enum.filterMap (fun colp =>
      if colp.2.2 = "harvest-ready" then some (rowp.1, colp.1, colp.2.1) else none))).flatten
  ready.foldl (fun st t =>
    addEvent st (t.2.2.crop.name ++ " at row " ++ toString (t.1 + 1) ++ ", column "
      ++ toString (t.2.1 + 1) ++ " is ready for harvest!") false) s

/-- The `seasons` array of `advanceSeason`. -/
def seasonsList : List String := ["Spring", "Summer", "Fall", "Winter"]

/-- `seasons[(seasons.indexOf(season) + 1) % 4]` (with JavaScript's `-1` for a
season string not in the array, so an unknown season maps to `"Spring"`). -/
def nextSeason (cur : String) : String :=
  seasonsList.getD (((jsIndexOf seasonsList cur + 1) % 4).toNat) "Spring"

/-- Per-entry body of `fluctuateMarketPrices`: multiply by the drawn factor and
clamp to `[0.5, 2.0]`.  Ids without an entry are left alone (in JavaScript they
would become `NaN`; the constructor initializes every non-empty crop id, so the
case never arises in the running game). -/
def updatePrice (prices : List (String × ℚ)) (id : String) (change : ℚ) :
    List (String × ℚ) :=
  prices.map (fun p =>
    if p.1 = id then (p.1, max 0.5 (min 2.0 (p.2 * change))) else p)

/-- `fluctuateMarketPrices()`: one random factor in `[0.9, 1.1)` per non-empty
crop, multiplicative with clamping. -/
def fluctuateMarketPrices (env : Env) (s : GameState) : GameState :=
  env.crops.foldl (fun st crop =>
    if crop.id = "empty" then st
    else
      let d := draw st
      let change := 0.9 + d.1 * 0.2
      { d.2 with marketPrices := updatePrice d.2.marketPrices crop.id change }) s

/-- The `case 'Summer':` block of `advanceSeason`'s `switch`. -/
def summerCase (env : Env) (s : GameState) : GameState :=
  let d1 := draw s
  let s := if d1.1 < 0.3 then
      { d1.2 with pendingEvents :=
        d1.2.pendingEvents ++ [env.scheduleDrought d1.2.day d1.2.climate.droughtProbability] }
    else d1.2
  let d2 := draw s
  if d2.1 < 0.4 then
    { d2.2 with pendingEvents := d2.2.pendingEvents ++ [env.scheduleHeatwave d2.2.day] }
  else d2.2

/-- The `case 'Winter':` block of `advanceSeason`'s `switch`. -/
def winterCase (env : Env) (s : GameState) : GameState :=
  let d1 := draw s
  let s := if d1.1 < 0.3 then
      { d1.2 with pendingEvents := d1.2.pendingEvents ++ [env.scheduleFrost d1.2.day] }
    else d1.2
  let d2 := draw s
  let winterRecovery := jsFloor (5 + d2.1 * 10)
  let s := { d2.2 with waterReserve := min 100 (d2.2.waterReserve + winterRecovery) }
  if winterRecovery > 5 then
    addEvent s ("Winter precipitation replenished " ++ toString winterRecovery
      ++ "% of water reserves.") false
  else s

/-- The `case 'Spring':` block of `advanceSeason`'s `switch`. -/
def springCase (env : Env) (s : GameState) : GameState :=
  let d1 := draw s
  let s := if d1.1 < 0.4 then
      { d1.2 with pendingEvents := d1.2.pendingEvents ++ [env.scheduleRain d1.2.day] }
    else d1.2
  let d2 := draw s
  let springRecovery := jsFloor (10 + d2.1 * 15)
  let s := { d2.2 with waterReserve := min 100 (d2.2.waterReserve + springRecovery) }
  addEvent s ("Spring rains replenished " ++ toString springRecovery
    ++ "% of water reserves.") false

/-- The `case 'Fall':` block of `advanceSeason`'s `switch`. -/
def fallCase (env : Env) (s : GameState) : GameState :=
  let d1 := draw s
  let s := if d1.1 < 0.3 then
      { d1.2 with pendingEvents := d1.2.pendingEvents ++ [env.scheduleRain d1.2.day] }
    else d1.2
  let d2 := draw s
  let s := if d2.1 < 0.2 then
      { d2.2 with pendingEvents := d2.2.pendingEvents ++ [env.scheduleHeatwave d2.2.day] }
    else d2.2
  let d3 := draw s
  let fallRecovery := jsFloor (5 + d3.1 * 10)
  let s := { d3.2 with waterReserve := min 100 (d3.2.waterReserve + fallRecovery) }
  if fallRecovery > 5 then
    addEvent s ("Fall weather replenished " ++ toString fallRecovery
      ++ "% of water reserves.") false
  else s

/-- The `switch (this.season)` of `advanceSeason`, dispatching on the already
rotated season. -/
def seasonSwitch (env : Env) (s : GameState) : GameState :=
  if s.season = "Summer" then summerCase env s
  else if s.season = "Winter" then winterCase env s
  else if s.season = "Spring" then springCase env s
  else if s.season = "Fall" then fallCase env s
  else s

/-- The trailing greenhouse notification check of `advanceSeason`. -/
def greenhouseCheck (s : GameState) : GameState :=
  if hasTechnology s "greenhouse" ∧ (s.season = "Winter" ∨ s.season = "Summer") then
    addEvent s "Greenhouse technology is protecting crops from seasonal extremes." false
  else s

/-- `advanceSeason()`: rotate the season, log it, fluctuate market prices, run
the season-specific `switch` (event seeding, water recovery), then the
greenhouse notification check. -/
def advanceSeason (env : Env) (s : GameState) : GameState :=
  let s := { s with season := nextSeason s.season }
  let s := addEvent s ("Season changed to " ++ s.season) false
  let s := fluctuateMarketPrices env s
  greenhouseCheck (seasonSwitch env s)

/-- `applyAnnualInflation()`: compound `overheadCostPerCell` in place. -/
def applyAnnualInflation (s : GameState) : GameState :=
  { s with overheadCostPerCell :=
      jsRound (s.overheadCostPerCell * (1 + s.annualInflationRate)) }

/-- The result record of `calculateSustainabilityScore`. -/
structure SustainabilityScore where
  total : ℤ
  soilScore : ℤ
  diversityScore : ℤ
  techScore : ℤ
deriving DecidableEq

/-- The `switch (tech)` of the tech-scoring loop: per-technology points. -/
def techPointsOf (tech : String) : ℚ :=
  if tech = "no_till_farming" ∨ tech = "silvopasture" then 20
  else if tech = "drip_irrigation" ∨ tech = "renewable_energy" ∨ tech = "precision_drones" then 15
  else 10

/-- The `sustainableTechs` array, in source order. -/
def sustainableTechs : List String :=
  ["drip_irrigation", "soil_sensors", "no_till_farming",
   "precision_drones", "renewable_energy", "greenhouse",
   "drought_resistant", "ai_irrigation", "silvopasture"]

/-- `calculateSustainabilityScore()`. -/
def calculateSustainabilityScore (env : Env) (s : GameState) : SustainabilityScore :=
  let cells := s.grid.flatten
  let totalSoilHealth := (cells.map (fun c => c.soilHealth)).sum
  let cellCount := cells.length
  let nonEmptyIds := (cells.filter (fun c => c.crop.id ≠ "empty")).map (fun c => c.crop.id)
  let totalCrops := nonEmptyIds.length
  let monocropPenalty : ℚ := ((cells.filter (fun c => c.crop.id ≠ "empty")).map
    (fun c => if c.consecutivePlantings > 0 then (c.consecutivePlantings : ℚ) * 2 else 0)).sum
  let avgSoilHealth : ℚ := if cellCount > 0 then totalSoilHealth / cellCount else 0
  let soilScore : ℤ := round avgSoilHealth
  let uniqueCrops := nonEmptyIds.dedup.length
  let cropDiversityScore : ℤ :=
    if totalCrops > 0 then
      let maxPossibleCrops := min totalCrops (env.crops.length - 1)
      let rawDiversityScore : ℚ := ((uniqueCrops : ℚ) / (maxPossibleCrops : ℚ)) * 100
      let maxSingleCropCount := (nonEmptyIds.dedup.map (fun id => nonEmptyIds.count id)).foldr max 0
      let dominantCropPercentage : ℚ := (maxSingleCropCount : ℚ) / (totalCrops : ℚ)
      let distributionPenalty := dominantCropPercentage * 50
      round (max 0 (rawDiversityScore - distributionPenalty - monocropPenalty / (totalCrops : ℚ)))
    else 0
  let maxTechScore : ℚ := ((sustainableTechs.length : ℕ) : ℚ) * 100
  let rawTechScore : ℚ :=
    (sustainableTechs.map (fun tech =>
      if hasTechnology s tech then techPointsOf tech else 0)).sum
  let techScore : ℤ := round ((rawTechScore / maxTechScore) * 100)
  let totalScore : ℤ := round ((soilScore : ℚ) * 0.4 + (cropDiversityScore : ℚ) * 0.4
    + (techScore : ℚ) * 0.2)
  ⟨totalScore, soilScore, cropDiversityScore, techScore⟩

/-- `distributeSubsidy(sustainabilityScore)`: a random factor in `[0.5, 1.5)`
drawn up front, a tiered base amount, and a notification in every case. -/
def distributeSubsidy (score : SustainabilityScore) (s : GameState) : GameState :=
  let d := draw s
  let randomFactor := 0.5 + d.1
  let s := d.2
  let baseSubsidy : ℚ :=
    if score.total ≥ 70 then 4000
    else if score.total ≥ 50 then 2000
    else if score.total ≥ 30 then 1000
    else 0
  if baseSubsidy > 0 then
    let finalSubsidy := jsRound (baseSubsidy * randomFactor)
    addEvent { s with balance := s.balance + finalSubsidy }
      ("Received a subsidy of $" ++ toString finalSubsidy ++ " for your sustainability efforts.")
      false
  else
    addEvent s "No subsidies granted this year due to low sustainability score." false

/-- The decade-milestone block at the end of `advanceYear` (every 10 years:
a milestone notification, then a 70% chance of enqueuing a policy event). -/
def milestoneCheck (env : Env) (s : GameState) : GameState :=
  if s.year % 10 = 0 then
    let s := addEvent s ("Major milestone: " ++ toString s.year ++ " years of operation!") false
    let d := draw s
    let s := d.2
    if d.1 < 0.7 then
      let policyEvent := env.generatePolicyEvent s.year s.farmHealth
      let s := { s with pendingEvents := s.pendingEvents ++ [policyEvent] }
      addEvent s "New climate policy announced for the next decade." false
    else s
  else s

/-- `advanceYear()`: year increment, inflation, farm-value and sustainability
recomputation, climate drift, new-year notification, subsidy, decade milestone. -/
def advanceYear (env : Env) (s : GameState) : GameState :=
  let s := { s with year := s.year + 1 }
  let s := applyAnnualInflation s
  let s := { s with farmValue := env.calculateFarmValue s.grid s.technologies }
  let score := calculateSustainabilityScore env s
  let s := { s with climate := { s.climate with
    droughtProbability := s.climate.droughtProbability + 0.005,
    heatwaveProbability := s.climate.heatwaveProbability + 0.005 } }
  let s := addEvent s ("Happy New Year! Completed Year " ++ toString (s.year - 1)
    ++ " of farming.") false
  let s := distributeSubsidy score s
  milestoneCheck env s

/-- The event types the `switch` of `processPendingEvents` recognizes. -/
def recognizedEventTypes : List String :=
  ["rain", "drought", "heatwave", "frost", "market", "policy", "technology"]

/-- The `switch (event.type)` body of `processPendingEvents` for one active
event.  Handlers never assign `this.day`, `this.season`, `this.seasonDay` or
`this.year`.  A type outside `recognizedEventTypes` falls through with no
effect. -/
def processEvent (env : Env) (e : PendingEvent) (s : GameState) : GameState :=
  if e.etype = "rain" then
    let r := env.applyRainEvent e s.grid s.waterReserve s.researchedTechs
    addEvent { s with grid := r.grid, waterReserve := r.waterReserve } r.message false
  else if e.etype = "drought" then
    let r := env.applyDroughtEvent e s.grid s.waterReserve s.researchedTechs
    let s := { s with grid := r.grid }
    if r.skipped then s
    else
      let s := addEvent { s with waterReserve := r.waterReserve } r.message true
      if r.continueEvent then
        { s with pendingEvents :=
          s.pendingEvents ++ [⟨"drought", s.day + 1, r.nextDuration, r.severity, "", false⟩] }
      else addEvent s "The drought has ended." false
  else if e.etype = "heatwave" then
    let r := env.applyHeatwaveEvent e s.grid s.waterReserve s.researchedTechs
    let s := { s with grid := r.grid }
    if r.skipped then s
    else
      let s := addEvent { s with waterReserve := r.waterReserve } r.message true
      if r.continueEvent then
        { s with pendingEvents :=
          s.pendingEvents ++ [⟨"heatwave", s.day + 1, r.nextDuration, 0, "", false⟩] }
      else addEvent s "The heatwave has ended." false
  else if e.etype = "frost" then
    let r := env.applyFrostEvent e s.grid s.researchedTechs
    addEvent { s with grid := r.grid } r.message true
  else if e.etype = "market" then
    let r := env.applyMarketEvent e s.marketPrices env.crops
    addEvent { s with marketPrices := r.marketPrices } r.message false
  else if e.etype = "policy" then
    let r := env.applyPolicyEvent e s.balance
    addEvent { s with balance := r.newBalance } r.message (decide (r.balanceChange < 0))
  else if e.etype = "technology" then
    let r := env.applyTechnologyEvent e s.balance s.researchedTechs
    addEvent { s with balance := r.newBalance, researchedTechs := r.researchedTechs }
      r.message false
  else s

/-- `processPendingEvents()`: select the events whose trigger day is the current
day, dispatch each through the `switch`, then drop every event matching the
current day (`this.day` is never reassigned by a handler, so the final filter
sees the same day the selection did). -/
def processPendingEvents (env : Env) (s : GameState) : GameState :=
  let active := s.pendingEvents.filter (fun e => e.day == s.day)
  let s' := active.foldl (fun st e => processEvent env e st) s
  { s' with pendingEvents := s'.pendingEvents.filter (fun e => e.day != s.day) }

/-- Step 1 of `update()`: `this.day++; this.seasonDay++`. -/
def incrementClocks (s : GameState) : GameState :=
  { s with day := s.day + 1, seasonDay := s.seasonDay + 1 }

/-- Step 4 of `update()`: season rollover when `seasonDay > 90`. -/
def seasonRolloverCheck (env : Env) (s : GameState) : GameState :=
  if s.seasonDay > 90 then advanceSeason env { s with seasonDay := 1 } else s

/-- Step 5 of `update()`: year rollover when `day > 360`. -/
def yearRolloverCheck (env : Env) (s : GameState) : GameState :=
  if s.day > 360 then advanceYear env { s with day := 1 } else s

/-- Step 7 of `update()`: recompute `farmHealth` via the external helper. -/
def recomputeFarmHealth (env : Env) (s : GameState) : GameState :=
  { s with farmHealth := env.calculateFarmHealth s.grid s.waterReserve }

/-- Step 8 of `update()`: the 1% ambient-event roll; a produced event is both
enqueued and logged immediately. -/
def ambientEventRoll (env : Env) (s : GameState) : GameState :=
  let d := draw s
  let s := d.2
  if d.1 < 0.01 then
    match env.generateRandomEvent
      ⟨s.climate, s.day, s.season, s.waterReserve, s.farmHealth, s.balance, s.researchedTechs⟩ with
    | some ev =>
      addEvent { s with pendingEvents := s.pendingEvents ++ [ev] } ev.message ev.isAlert
    | none => s
  else s

/-- `runTestUpdate()` (via `terminateTest`, which sets `paused`). -/
def runTestUpdate (s : GameState) : GameState :=
  if s.autoTerminate ∧ (s.year ≥ s.testEndYear ∨ s.balance ≤ 0) then
    { s with paused := true }
  else s

/-- Trailing test-mode hook of `update()`. -/
def testModeHook (s : GameState) : GameState :=
  if s.testMode then runTestUpdate s else s

/-- `update()`: one simulation tick, as the ordered composition of its steps. -/
def update (env : Env) (s : GameState) : GameState :=
  testModeHook (ambientEventRoll env (recomputeFarmHealth env (processPendingEvents env
    (yearRolloverCheck env (seasonRolloverCheck env (updateFarm env
      (payDailyOverhead (incrementClocks s))))))))

/-- The year-indexed inflation multiplier `(1 + annualInflationRate)^(year - 1)`
recomputed inside each costed action. -/
def inflationMultiplier (s : GameState) : ℚ :=
  (1 + s.annualInflationRate) ^ (s.year - 1)

/-- The planting cost computed inside `plantCrop`. -/
def plantingCostOf (s : GameState) (crop : Crop) : ℚ :=
  jsRound (crop.basePrice * 0.4 * inflationMultiplier s)

/-- The irrigation cost computed inside `irrigateCell`. -/
def irrigationCostOf (s : GameState) : ℚ :=
  jsRound (200 * inflationMultiplier s)

/-- The fertilizing cost computed inside `fertilizeCell`. -/
def fertilizeCostOf (s : GameState) : ℚ :=
  jsRound (300 * inflationMultiplier s)

/-- `plantCrop(row, col, cropId)`. -/
def plantCrop (env : Env) (row col : ℕ) (cropId : String) (s : GameState) :
    Bool × GameState :=
  let cell := getCell s row col
  match env.getCropById cropId with
  | none => (false, s)
  | some newCrop =>
    if newCrop.id = "empty" then (false, s)
    else
      let plantingCost := plantingCostOf s newCrop
      if s.balance < plantingCost then
        (false, addEvent s ("Cannot afford to plant " ++ newCrop.name ++ ". Cost: $"
          ++ toString plantingCost) true)
      else
        let s := { s with balance := s.balance - plantingCost }
        let s := setCell s row col (env.cellPlant newCrop cell)
        (true, addEvent s ("Planted " ++ newCrop.name ++ " at row " ++ toString (row + 1)
          ++ ", column " ++ toString (col + 1) ++ ". Cost: $" ++ toString plantingCost) false)

/-- `irrigateCell(row, col)`. -/
def irrigateCell (env : Env) (row col : ℕ) (s : GameState) : Bool × GameState :=
  let cell := getCell s row col
  if cell.crop.id = "empty" then
    (false, addEvent s "Cannot irrigate an empty plot." true)
  else if cell.irrigated then
    (false, addEvent s "This plot is already irrigated." true)
  else
    let irrigationCost := irrigationCostOf s
    if s.balance < irrigationCost then
      (false, addEvent s ("Cannot afford irrigation. Cost: $" ++ toString irrigationCost) true)
    else
      let s := { s with balance := s.balance - irrigationCost }
      let waterEfficiency := env.getTechEffectValue "waterEfficiency" s.researchedTechs 1
      let s := setCell s row col (env.cellIrrigate waterEfficiency cell)
      let s :=
        if hasTechnology s "ai_irrigation" then
          let c := getCell s row col
          setCell s row col { c with expectedYield := min 150 (c.expectedYield + 10) }
        else s
      (true, addEvent s ("Irrigated plot at row " ++ toString (row + 1) ++ ", column "
        ++ toString (col + 1) ++ ". Cost: $" ++ toString irrigationCost) false)

/-- `fertilizeCell(row, col)`. -/
def fertilizeCell (env : Env) (row col : ℕ) (s : GameState) : Bool × GameState :=
  let cell := getCell s row col
  if cell.crop.id = "empty" then
    (false, addEvent s "Cannot fertilize an empty plot." true)
  else if cell.fertilized then
    (false, addEvent s "This plot is already fertilized." true)
  else
    let fertilizeCost := fertilizeCostOf s
    if s.balance < fertilizeCost then
      (false, addEvent s ("Cannot afford fertilizer. Cost: $" ++ toString fertilizeCost) true)
    else
      let s := { s with balance := s.balance - fertilizeCost }
      let fertilizerEfficiency := env.getTechEffectValue "fertilizerEfficiency" s.researchedTechs 1
      let s := setCell s row col (env.cellFertilize fertilizerEfficiency cell)
      (true, addEvent s ("Fertilized plot at row " ++ toString (row + 1) ++ ", column "
        ++ toString (col + 1) ++ ". Cost: $" ++ toString fertilizeCost) false)

/-- `harvestCell(row, col)`. -/
def harvestCell (env : Env) (row col : ℕ) (s : GameState) : Bool × GameState :=
  let cell := getCell s row col
  if cell.crop.id = "empty" then
    (false, addEvent s "Nothing to harvest in this plot." true)
  else if ¬ cell.harvestReady then
    (false, addEvent s "Crop is not ready for harvest yet." true)
  else
    let marketPrice := jsPriceOr1 s.marketPrices cell.crop.id
    let r := env.cellHarvest s.waterReserve marketPrice cell
    let s := setCell s row col r.1
    let s := { s with balance := s.balance + r.2.value }
    (true, addEvent s ("Harvested " ++ r.2.cropName ++ " for $" ++ toString r.2.value
      ++ ". Yield: " ++ toString r.2.yieldPercentage ++ "%") false)

/-- `applyTechnologyEffects(tech)`: a (truthy) `soilHealth` effect multiplies
every cell's soil health, capped at 100. -/
def applyTechnologyEffects (s : GameState) (tech : Technology) : GameState :=
  match tech.effects.soilHealth with
  | some m =>
    if m = 0 then s
    else { s with grid := s.grid.map (fun row => row.map (fun c =>
      { c with soilHealth := min 100 (c.soilHealth * m) })) }
  | none => s

/-- `researchTechnology(techId)`. -/
def researchTechnology (env : Env) (techId : String) (s : GameState) :
    Bool × GameState :=
  match s.technologies.find? (fun t => t.id == techId) with
  | none => (false, s)
  | some tech =>
    if tech.researched then (false, s)
    else if ¬ env.checkTechPrerequisites tech s.researchedTechs then
      (false, addEvent s ("Cannot research " ++ tech.name ++ " - prerequisites not met.") true)
    else if s.balance < tech.cost then
      (false, addEvent s ("Cannot afford to research " ++ tech.name ++ ". Cost: $"
        ++ toString tech.cost) true)
    else
      let s := { s with
                 balance := s.balance - tech.cost,
                 technologies := s.technologies.map (fun t =>
                   if t.id = tech.id then { t with researched := true } else t),
                 researchedTechs := s.researchedTechs ++ [tech.id] }
      let s := applyTechnologyEffects s tech
      (true, addEvent s ("Researched " ++ tech.name ++ " for $" ++ toString tech.cost) false)

/-! ## Claim-side definitions and concrete instances -/

/-- The per-technology point sum exactly as claim C1 words it: 20 points each
for no_till_farming and silvopasture; 15 each for drip_irrigation,
renewable_energy, precision_drones; 10 each for drought_resistant,
ai_irrigation, soil_sensors, greenhouse — counted only when researched. -/
def claimTechPoints (techs : List String) : ℚ :=
  (if techs.contains "no_till_farming" then 20 else 0)
  + (if techs.contains "silvopasture" then 20 else 0)
  + (if techs.contains "drip_irrigation" then 15 else 0)
  + (if techs.contains "renewable_energy" then 15 else 0)
  + (if techs.contains "precision_drones" then 15 else 0)
  + (if techs.contains "drought_resistant" then 10 else 0)
  + (if techs.contains "ai_irrigation" then 10 else 0)
  + (if techs.contains "soil_sensors" then 10 else 0)
  + (if techs.contains "greenhouse" then 10 else 0)

/-- Modelled from the spec: `scheduleHeatwave(day) → Event` (events.js is not
under `src/`); per the spec's dispatch table a scheduled heatwave carries type
`"heatwave"` and a trigger day derived from the passed day.  Payload values are
immaterial to the claims. -/
def scheduleHeatwaveModel (day : ℕ) : PendingEvent :=
  ⟨"heatwave", day + 1, 3, 0, "", false⟩

/-- Modelled from the spec: `scheduleRain(day) → Event`, carrying type `"rain"`. -/
def scheduleRainModel (day : ℕ) : PendingEvent :=
  ⟨"rain", day + 1, 0, 0, "", false⟩

/-- Modelled from the spec: `scheduleDrought(day, probability) → Event`,
carrying type `"drought"`. -/
def scheduleDroughtModel (day : ℕ) (p : ℚ) : PendingEvent :=
  ⟨"drought", day + 1, 5, p, "", false⟩

/-- Modelled from the spec: `scheduleFrost(day) → Event`, carrying type
`"frost"`. -/
def scheduleFrostModel (day : ℕ) : PendingEvent :=
  ⟨"frost", day + 1, 0, 0, "", false⟩

/-- An inert environment: trivial collaborators, used to instantiate the
universally quantified theorems at concrete inputs. -/
def env0 : Env where
  crops := []
  getCropById := fun _ => none
  cellUpdate := fun _ _ c => (c, "")
  cellPlant := fun _ c => c
  cellIrrigate := fun _ c => c
  cellFertilize := fun _ c => c
  cellHarvest := fun _ _ c => (c, ⟨0, "", 0⟩)
  checkTechPrerequisites := fun _ _ => true
  getTechEffectValue := fun _ _ d => d
  generateRandomEvent := fun _ => none
  scheduleDrought := scheduleDroughtModel
  scheduleHeatwave := scheduleHeatwaveModel
  scheduleFrost := scheduleFrostModel
  scheduleRain := scheduleRainModel
  generatePolicyEvent := fun _ _ => ⟨"policy", 1, 0, 0, "", false⟩
  applyRainEvent := fun _ g w _ => ⟨g, w, ""⟩
  applyDroughtEvent := fun _ g w _ => ⟨false, g, w, "", false, 0, 0⟩
  applyHeatwaveEvent := fun _ g w _ => ⟨false, g, w, "", false, 0, 0⟩
  applyFrostEvent := fun _ g _ => ⟨g, ""⟩
  applyMarketEvent := fun _ p _ => ⟨p, ""⟩
  applyPolicyEvent := fun _ b => ⟨b, "", 0⟩
  applyTechnologyEvent := fun _ b t => ⟨b, "", t⟩
  calculateFarmHealth := fun _ w => w
  calculateFarmValue := fun _ _ => 0

/-- A small concrete base state (constructor values of `game.js`, with an empty
grid so that concrete evaluation stays cheap). -/
def s0 : GameState where
  day := 1
  year := 1
  season := "Spring"
  seasonDay := 1
  balance := 20000
  farmValue := 50000
  farmHealth := 85
  waterReserve := 60
  paused := false
  overheadCostPerCell := 10
  annualInflationRate := 0.03
  gridSize := 0
  grid := []
  technologies := []
  researchedTechs := []
  events := []
  pendingEvents := []
  marketPrices := []
  climate := ⟨70, 20, 0.05, 0.03, 0.08⟩
  rng := []
  testMode := false
  autoTerminate := false
  testEndYear := 50

/-- A state with all nine sustainable technologies researched (for claim C1). -/
def sAll9 : GameState :=
  { s0 with researchedTechs := sustainableTechs }

/-- A basePrice-1000 crop (for claim C3's concrete pricing facts). -/
def cropB : Crop := ⟨"almonds", "Almonds", 1000⟩

/-- An environment whose crop registry knows `cropB` (for C3's witness). -/
def envP : Env :=
  { env0 with getCropById := fun id =>
      if id = "almonds" then some cropB
      else if id = "empty" then some ⟨"empty", "Empty Plot", 0⟩
      else none }

/-- An environment whose drought and heatwave handlers both report an
unmitigated, continuing event (for claim C9's witness). -/
def envC : Env :=
  { env0 with
    applyDroughtEvent := fun _ g w _ => ⟨false, g, w, "Drought hits the farm.", true, 2, 1⟩,
    applyHeatwaveEvent := fun _ g w _ => ⟨false, g, w, "Heatwave hits the farm.", true, 2, 0⟩ }

/-- An environment whose drought handler reports `skipped` (for claim C10's
witness). -/
def envS : Env :=
  { env0 with applyDroughtEvent := fun _ g w _ => ⟨true, g, w, "", false, 0, 0⟩ }

/-- A Summer state about to roll over into Fall, with random draws chosen so
that the Fall branch seeds a heatwave (for claim C7's counterexample):
rain roll 0.9 (≥ 0.3, no rain), heatwave roll 0.1 (< 0.2, heatwave scheduled),
recovery roll 0. -/
def sFall : GameState :=
  { s0 with season := "Summer", day := 181, rng := [0.9, 0.1, 0] }

/-- A day-360 state (for claim C9's continuation-enqueue witness). -/
def s360 : GameState := { s0 with day := 360 }

/-- A drought event triggering on day 360 (for claims C9/C10 witnesses). -/
def eDrought360 : PendingEvent := ⟨"drought", 360, 3, 1, "", false⟩

/-- A heatwave event triggering on day 360 (for claim C9's witness). -/
def eHeat360 : PendingEvent := ⟨"heatwave", 360, 3, 0, "", false⟩

/-- An orphaned pending event with trigger day 361 (for claim C9's witness). -/
def e361 : PendingEvent := ⟨"drought", 361, 2, 1, "", false⟩

/-- A state carrying the orphaned day-361 event (for claim C9's witness). -/
def sOrphan : GameState := { s0 with day := 5, pendingEvents := [e361] }

/-- A pending event of an unrecognized type (for claim C6's witness). -/
def eUnknown : PendingEvent := ⟨"locusts", 3, 0, 0, "", false⟩

/-- A state holding one future event and one unrecognized event due today
(for claim C6's witness). -/
def sC6 : GameState :=
  { s0 with day := 3,
            pendingEvents := [⟨"rain", 5, 0, 0, "", false⟩, eUnknown] }

/-- The common shape of an alert-logged rejection (claim C2): the action
reports failure, mutates none of balance/grid/researchedTechs/technologies,
and its only effect is appending one alert entry to the event log. -/
def RejectsWithAlert (s : GameState) (res : Bool × GameState) : Prop :=
  res.1 = false ∧ res.2.balance = s.balance ∧ res.2.grid = s.grid
  ∧ res.2.researchedTechs = s.researchedTechs ∧ res.2.technologies = s.technologies
  ∧ ∃ m, res.2 = addEvent s m true

/-- A planted, untreated, not-yet-ready cell (for claim C2's witness). -/
def cellPlanted : Cell := ⟨cropB, 80, false, false, false, 0, 100⟩

/-- A planted, already-irrigated cell (for claim C2's witness). -/
def cellIrrigatedC : Cell := ⟨cropB, 80, true, false, false, 0, 100⟩

/-- A planted, already-fertilized cell (for claim C2's witness). -/
def cellFertilizedC : Cell := ⟨cropB, 80, false, true, false, 0, 100⟩

/-- A one-cell, zero-balance state around the given cell (for claim C2's
witness: validation failures and insufficient-funds failures alike). -/
def sPlot (c : Cell) : GameState :=
  { s0 with gridSize := 1, grid := [[c]], balance := 0 }

/-- The zero-balance constructor state (for claim C2's witness). -/
def sPoor : GameState := { s0 with balance := 0 }

/-- An unresearched technology with no prerequisites (for claim C2's witness). -/
def techU : Technology := ⟨"drip_irrigation", "Drip Irrigation", 1000, [], ⟨none⟩, false⟩

/-- The same technology, already researched (for claim C2's witness). -/
def techR : Technology := { techU with researched := true }

/-- A zero-balance state whose tree holds only the unresearched `techU`. -/
def sTechU : GameState := { s0 with technologies := [techU], balance := 0 }

/-- A state whose tree holds only the researched `techR`. -/
def sTechR : GameState := { s0 with technologies := [techR] }

/-- An environment whose prerequisite check always fails (for claim C2's
witness). -/
def envNoPre : Env := { env0 with checkTechPrerequisites := fun _ _ => false }

/-! ## Helper lemmas: field preservation -/

theorem foldl_field {α β : Type} (f : GameState → α → GameState) (g : GameState → β)
    (h : ∀ st a, g (f st a) = g st) :
    ∀ (l : List α) (st : GameState), g (l.foldl f st) = g st := by
  intro l
  induction l with
  | nil => intro st; rfl
  | cons a l ih => intro st; rw [List.foldl_cons, ih, h]

@[simp] theorem addEvent_day (s : GameState) (m : String) (b : Bool) :
    (addEvent s m b).day = s.day := rfl

@[simp] theorem addEvent_year (s : GameState) (m : String) (b : Bool) :
    (addEvent s m b).year = s.year := rfl

@[simp] theorem addEvent_season (s : GameState) (m : String) (b : Bool) :
    (addEvent s m b).season = s.season := rfl

@[simp] theorem addEvent_seasonDay (s : GameState) (m : String) (b : Bool) :
    (addEvent s m b).seasonDay = s.seasonDay := rfl

@[simp] theorem addEvent_balance (s : GameState) (m : String) (b : Bool) :
    (addEvent s m b).balance = s.balance := rfl

@[simp] theorem addEvent_grid (s : GameState) (m : String) (b : Bool) :
    (addEvent s m b).grid = s.grid := rfl

@[simp] theorem addEvent_waterReserve (s : GameState) (m : String) (b : Bool) :
    (addEvent s m b).waterReserve = s.waterReserve := rfl

@[simp] theorem addEvent_overheadCostPerCell (s : GameState) (m : String) (b : Bool) :
    (addEvent s m b).overheadCostPerCell = s.overheadCostPerCell := rfl

@[simp] theorem addEvent_annualInflationRate (s : GameState) (m : String) (b : Bool) :
    (addEvent s m b).annualInflationRate = s.annualInflationRate := rfl

@[simp] theorem addEvent_researchedTechs (s : GameState) (m : String) (b : Bool) :
    (addEvent s m b).researchedTechs = s.researchedTechs := rfl

@[simp] theorem addEvent_technologies (s : GameState) (m : String) (b : Bool) :
    (addEvent s m b).technologies = s.technologies := rfl

@[simp] theorem addEvent_pendingEvents (s : GameState) (m : String) (b : Bool) :
    (addEvent s m b).pendingEvents = s.pendingEvents := rfl

@[simp] theorem addEvent_marketPrices (s : GameState) (m : String) (b : Bool) :
    (addEvent s m b).marketPrices = s.marketPrices := rfl

@[simp] theorem addEvent_climate (s : GameState) (m : String) (b : Bool) :
    (addEvent s m b).climate = s.climate := rfl

@[simp] theorem addEvent_rng (s : GameState) (m : String) (b : Bool) :
    (addEvent s m b).rng = s.rng := rfl

@[simp] theorem addEvent_farmHealth (s : GameState) (m : String) (b : Bool) :
    (addEvent s m b).farmHealth = s.farmHealth := rfl

@[simp] theorem addEvent_gridSize (s : GameState) (m : String) (b : Bool) :
    (addEvent s m b).gridSize = s.gridSize := rfl

theorem fluctuate_season (env : Env) (s : GameState) :
    (fluctuateMarketPrices env s).season = s.season := by
  unfold fluctuateMarketPrices
  apply foldl_field
  intro st a
  by_cases h : a.id = "empty" <;> simp [h, draw]

theorem fluctuate_day (env : Env) (s : GameState) :
    (fluctuateMarketPrices env s).day = s.day := by
  unfold fluctuateMarketPrices
  apply foldl_field
  intro st a
  by_cases h : a.id = "empty" <;> simp [h, draw]

theorem fluctuate_seasonDay (env : Env) (s : GameState) :
    (fluctuateMarketPrices env s).seasonDay = s.seasonDay := by
  unfold fluctuateMarketPrices
  apply foldl_field
  intro st a
  by_cases h : a.id = "empty" <;> simp [h, draw]

theorem fluctuate_year (env : Env) (s : GameState) :
    (fluctuateMarketPrices env s).year = s.year := by
  unfold fluctuateMarketPrices
  apply foldl_field
  intro st a
  by_cases h : a.id = "empty" <;> simp [h, draw]

theorem fluctuate_pendingEvents (env : Env) (s : GameState) :
    (fluctuateMarketPrices env s).pendingEvents = s.pendingEvents := by
  unfold fluctuateMarketPrices
  apply foldl_field
  intro st a
  by_cases h : a.id = "empty" <;> simp [h, draw]

theorem fluctuate_overheadCostPerCell (env : Env) (s : GameState) :
    (fluctuateMarketPrices env s).overheadCostPerCell = s.overheadCostPerCell := by
  unfold fluctuateMarketPrices
  apply foldl_field
  intro st a
  by_cases h : a.id = "empty" <;> simp [h, draw]

theorem summerCase_season (env : Env) (s : GameState) :
    (summerCase env s).season = s.season := by
  unfold summerCase; dsimp only; split_ifs <;> simp [draw]

theorem summerCase_day (env : Env) (s : GameState) :
    (summerCase env s).day = s.day := by
  unfold summerCase; dsimp only; split_ifs <;> simp [draw]

theorem summerCase_seasonDay (env : Env) (s : GameState) :
    (summerCase env s).seasonDay = s.seasonDay := by
  unfold summerCase; dsimp only; split_ifs <;> simp [draw]

theorem summerCase_year (env : Env) (s : GameState) :
    (summerCase env s).year = s.year := by
  unfold summerCase; dsimp only; split_ifs <;> simp [draw]

theorem summerCase_overheadCostPerCell (env : Env) (s : GameState) :
    (summerCase env s).overheadCostPerCell = s.overheadCostPerCell := by
  unfold summerCase; dsimp only; split_ifs <;> simp [draw]

theorem winterCase_season (env : Env) (s : GameState) :
    (winterCase env s).season = s.season := by
  unfold winterCase; dsimp only; split_ifs <;> simp [draw]

theorem winterCase_day (env : Env) (s : GameState) :
    (winterCase env s).day = s.day := by
  unfold winterCase; dsimp only; split_ifs <;> simp [draw]

theorem winterCase_seasonDay (env : Env) (s : GameState) :
    (winterCase env s).seasonDay = s.seasonDay := by
  unfold winterCase; dsimp only; split_ifs <;> simp [draw]

theorem winterCase_year (env : Env) (s : GameState) :
    (winterCase env s).year = s.year := by
  unfold winterCase; dsimp only; split_ifs <;> simp [draw]

theorem winterCase_overheadCostPerCell (env : Env) (s : GameState) :
    (winterCase env s).overheadCostPerCell = s.overheadCostPerCell := by
  unfold winterCase; dsimp only; split_ifs <;> simp [draw]

theorem springCase_season (env : Env) (s : GameState) :
    (springCase env s).season = s.season := by
  unfold springCase; dsimp only; split_ifs <;> simp [draw]

theorem springCase_day (env : Env) (s : GameState) :
    (springCase env s).day = s.day := by
  unfold springCase; dsimp only; split_ifs <;> simp [draw]

theorem springCase_seasonDay (env : Env) (s : GameState) :
    (springCase env s).seasonDay = s.seasonDay := by
  unfold springCase; dsimp only; split_ifs <;> simp [draw]

theorem springCase_year (env : Env) (s : GameState) :
    (springCase env s).year = s.year := by
  unfold springCase; dsimp only; split_ifs <;> simp [draw]

theorem springCase_overheadCostPerCell (env : Env) (s : GameState) :
    (springCase env s).overheadCostPerCell = s.overheadCostPerCell := by
  unfold springCase; dsimp only; split_ifs <;> simp [draw]

theorem fallCase_season (env : Env) (s : GameState) :
    (fallCase env s).season = s.season := by
  unfold fallCase; dsimp only; split_ifs <;> simp [draw]

theorem fallCase_day (env : Env) (s : GameState) :
    (fallCase env s).day = s.day := by
  unfold fallCase; dsimp only; split_ifs <;> simp [draw]

theorem fallCase_seasonDay (env : Env) (s : GameState) :
    (fallCase env s).seasonDay = s.seasonDay := by
  unfold fallCase; dsimp only; split_ifs <;> simp [draw]

theorem fallCase_year (env : Env) (s : GameState) :
    (fallCase env s).year = s.year := by
  unfold fallCase; dsimp only; split_ifs <;> simp [draw]

theorem fallCase_overheadCostPerCell (env : Env) (s : GameState) :
    (fallCase env s).overheadCostPerCell = s.overheadCostPerCell := by
  unfold fallCase; dsimp only; split_ifs <;> simp [draw]

theorem seasonSwitch_season (env : Env) (s : GameState) :
    (seasonSwitch env s).season = s.season := by
  unfold seasonSwitch
  split_ifs <;> simp [summerCase_season, winterCase_season, springCase_season, fallCase_season]

theorem seasonSwitch_day (env : Env) (s : GameState) :
    (seasonSwitch env s).day = s.day := by
  unfold seasonSwitch
  split_ifs <;> simp [summerCase_day, winterCase_day, springCase_day, fallCase_day]

theorem seasonSwitch_seasonDay (env : Env) (s : GameState) :
    (seasonSwitch env s).seasonDay = s.seasonDay := by
  unfold seasonSwitch
  split_ifs <;>
    simp [summerCase_seasonDay, winterCase_seasonDay, springCase_seasonDay, fallCase_seasonDay]

theorem seasonSwitch_year (env : Env) (s : GameState) :
    (seasonSwitch env s).year = s.year := by
  unfold seasonSwitch
  split_ifs <;> simp [summerCase_year, winterCase_year, springCase_year, fallCase_year]

theorem seasonSwitch_overheadCostPerCell (env : Env) (s : GameState) :
    (seasonSwitch env s).overheadCostPerCell = s.overheadCostPerCell := by
  unfold seasonSwitch
  split_ifs <;> simp [summerCase_overheadCostPerCell, winterCase_overheadCostPerCell,
    springCase_overheadCostPerCell, fallCase_overheadCostPerCell]

theorem greenhouseCheck_season (s : GameState) :
    (greenhouseCheck s).season = s.season := by
  unfold greenhouseCheck; split_ifs <;> simp

theorem greenhouseCheck_day (s : GameState) :
    (greenhouseCheck s).day = s.day := by
  unfold greenhouseCheck; split_ifs <;> simp

theorem greenhouseCheck_seasonDay (s : GameState) :
    (greenhouseCheck s).seasonDay = s.seasonDay := by
  unfold greenhouseCheck; split_ifs <;> simp

theorem greenhouseCheck_year (s : GameState) :
    (greenhouseCheck s).year = s.year := by
  unfold greenhouseCheck; split_ifs <;> simp

theorem greenhouseCheck_overheadCostPerCell (s : GameState) :
    (greenhouseCheck s).overheadCostPerCell = s.overheadCostPerCell := by
  unfold greenhouseCheck; split_ifs <;> simp

theorem greenhouseCheck_pendingEvents (s : GameState) :
    (greenhouseCheck s).pendingEvents = s.pendingEvents := by
  unfold greenhouseCheck; split_ifs <;> simp

theorem advanceSeason_season (env : Env) (s : GameState) :
    (advanceSeason env s).season = nextSeason s.season := by
  unfold advanceSeason
  dsimp only
  rw [greenhouseCheck_season, seasonSwitch_season, fluctuate_season, addEvent_season]

theorem advanceSeason_day (env : Env) (s : GameState) :
    (advanceSeason env s).day = s.day := by
  unfold advanceSeason
  dsimp only
  rw [greenhouseCheck_day, seasonSwitch_day, fluctuate_day, addEvent_day]

theorem advanceSeason_seasonDay (env : Env) (s : GameState) :
    (advanceSeason env s).seasonDay = s.seasonDay := by
  unfold advanceSeason
  dsimp only
  rw [greenhouseCheck_seasonDay, seasonSwitch_seasonDay, fluctuate_seasonDay, addEvent_seasonDay]

theorem advanceSeason_year (env : Env) (s : GameState) :
    (advanceSeason env s).year = s.year := by
  unfold advanceSeason
  dsimp only
  rw [greenhouseCheck_year, seasonSwitch_year, fluctuate_year, addEvent_year]

theorem advanceSeason_overheadCostPerCell (env : Env) (s : GameState) :
    (advanceSeason env s).overheadCostPerCell = s.overheadCostPerCell := by
  unfold advanceSeason
  dsimp only
  rw [greenhouseCheck_overheadCostPerCell, seasonSwitch_overheadCostPerCell,
    fluctuate_overheadCostPerCell, addEvent_overheadCostPerCell]

theorem payDailyOverhead_day (s : GameState) : (payDailyOverhead s).day = s.day := by
  unfold payDailyOverhead; dsimp only; split_ifs <;> simp

theorem payDailyOverhead_seasonDay (s : GameState) :
    (payDailyOverhead s).seasonDay = s.seasonDay := by
  unfold payDailyOverhead; dsimp only; split_ifs <;> simp

theorem payDailyOverhead_season (s : GameState) : (payDailyOverhead s).season = s.season := by
  unfold payDailyOverhead; dsimp only; split_ifs <;> simp

theorem payDailyOverhead_year (s : GameState) : (payDailyOverhead s).year = s.year := by
  unfold payDailyOverhead; dsimp only; split_ifs <;> simp

theorem payDailyOverhead_pendingEvents (s : GameState) :
    (payDailyOverhead s).pendingEvents = s.pendingEvents := by
  unfold payDailyOverhead; dsimp only; split_ifs <;> simp

theorem updateFarm_day (env : Env) (s : GameState) : (updateFarm env s).day = s.day := by
  unfold updateFarm; dsimp only
  rw [foldl_field _ GameState.day (fun st a => addEvent_day st _ false)]

theorem updateFarm_seasonDay (env : Env) (s : GameState) :
    (updateFarm env s).seasonDay = s.seasonDay := by
  unfold updateFarm; dsimp only
  rw [foldl_field _ GameState.seasonDay (fun st a => addEvent_seasonDay st _ false)]

theorem updateFarm_season (env : Env) (s : GameState) :
    (updateFarm env s).season = s.season := by
  unfold updateFarm; dsimp only
  rw [foldl_field _ GameState.season (fun st a => addEvent_season st _ false)]

theorem updateFarm_year (env : Env) (s : GameState) : (updateFarm env s).year = s.year := by
  unfold updateFarm; dsimp only
  rw [foldl_field _ GameState.year (fun st a => addEvent_year st _ false)]

theorem updateFarm_pendingEvents (env : Env) (s : GameState) :
    (updateFarm env s).pendingEvents = s.pendingEvents := by
  unfold updateFarm; dsimp only
  rw [foldl_field _ GameState.pendingEvents (fun st a => addEvent_pendingEvents st _ false)]

theorem distributeSubsidy_day (score : SustainabilityScore) (s : GameState) :
    (distributeSubsidy score s).day = s.day := by
  unfold distributeSubsidy; dsimp only; split_ifs <;> simp [draw]

theorem distributeSubsidy_seasonDay (score : SustainabilityScore) (s : GameState) :
    (distributeSubsidy score s).seasonDay = s.seasonDay := by
  unfold distributeSubsidy; dsimp only; split_ifs <;> simp [draw]

theorem distributeSubsidy_season (score : SustainabilityScore) (s : GameState) :
    (distributeSubsidy score s).season = s.season := by
  unfold distributeSubsidy; dsimp only; split_ifs <;> simp [draw]

theorem distributeSubsidy_year (score : SustainabilityScore) (s : GameState) :
    (distributeSubsidy score s).year = s.year := by
  unfold distributeSubsidy; dsimp only; split_ifs <;> simp [draw]

theorem distributeSubsidy_overheadCostPerCell (score : SustainabilityScore) (s : GameState) :
    (distributeSubsidy score s).overheadCostPerCell = s.overheadCostPerCell := by
  unfold distributeSubsidy; dsimp only; split_ifs <;> simp [draw]

theorem distributeSubsidy_climate (score : SustainabilityScore) (s : GameState) :
    (distributeSubsidy score s).climate = s.climate := by
  unfold distributeSubsidy; dsimp only; split_ifs <;> simp [draw]

theorem distributeSubsidy_pendingEvents (score : SustainabilityScore) (s : GameState) :
    (distributeSubsidy score s).pendingEvents = s.pendingEvents := by
  unfold distributeSubsidy; dsimp only; split_ifs <;> simp [draw]

theorem milestoneCheck_day (env : Env) (s : GameState) :
    (milestoneCheck env s).day = s.day := by
  unfold milestoneCheck; dsimp only; split_ifs <;> simp [draw]

theorem milestoneCheck_seasonDay (env : Env) (s : GameState) :
    (milestoneCheck env s).seasonDay = s.seasonDay := by
  unfold milestoneCheck; dsimp only; split_ifs <;> simp [draw]

theorem milestoneCheck_season (env : Env) (s : GameState) :
    (milestoneCheck env s).season = s.season := by
  unfold milestoneCheck; dsimp only; split_ifs <;> simp [draw]

theorem milestoneCheck_year (env : Env) (s : GameState) :
    (milestoneCheck env s).year = s.year := by
  unfold milestoneCheck; dsimp only; split_ifs <;> simp [draw]

theorem milestoneCheck_overheadCostPerCell (env : Env) (s : GameState) :
    (milestoneCheck env s).overheadCostPerCell = s.overheadCostPerCell := by
  unfold milestoneCheck; dsimp only; split_ifs <;> simp [draw]

theorem milestoneCheck_climate (env : Env) (s : GameState) :
    (milestoneCheck env s).climate = s.climate := by
  unfold milestoneCheck; dsimp only; split_ifs <;> simp [draw]

theorem advanceYear_day (env : Env) (s : GameState) : (advanceYear env s).day = s.day := by
  unfold advanceYear; dsimp only
  rw [milestoneCheck_day, distributeSubsidy_day]
  simp [applyAnnualInflation]

theorem advanceYear_seasonDay (env : Env) (s : GameState) :
    (advanceYear env s).seasonDay = s.seasonDay := by
  unfold advanceYear; dsimp only
  rw [milestoneCheck_seasonDay, distributeSubsidy_seasonDay]
  simp [applyAnnualInflation]

theorem advanceYear_season (env : Env) (s : GameState) :
    (advanceYear env s).season = s.season := by
  unfold advanceYear; dsimp only
  rw [milestoneCheck_season, distributeSubsidy_season]
  simp [applyAnnualInflation]

theorem advanceYear_year (env : Env) (s : GameState) :
    (advanceYear env s).year = s.year + 1 := by
  unfold advanceYear; dsimp only
  rw [milestoneCheck_year, distributeSubsidy_year]
  simp [applyAnnualInflation]

theorem advanceYear_overheadCostPerCell (env : Env) (s : GameState) :
    (advanceYear env s).overheadCostPerCell
      = jsRound (s.overheadCostPerCell * (1 + s.annualInflationRate)) := by
  unfold advanceYear; dsimp only
  rw [milestoneCheck_overheadCostPerCell, distributeSubsidy_overheadCostPerCell]
  simp [applyAnnualInflation]

theorem advanceYear_droughtProbability (env : Env) (s : GameState) :
    (advanceYear env s).climate.droughtProbability
      = s.climate.droughtProbability + 0.005 := by
  unfold advanceYear; dsimp only
  rw [milestoneCheck_climate, distributeSubsidy_climate]
  simp [applyAnnualInflation]

theorem advanceYear_heatwaveProbability (env : Env) (s : GameState) :
    (advanceYear env s).climate.heatwaveProbability
      = s.climate.heatwaveProbability + 0.005 := by
  unfold advanceYear; dsimp only
  rw [milestoneCheck_climate, distributeSubsidy_climate]
  simp [applyAnnualInflation]

theorem advanceYear_floodProbability (env : Env) (s : GameState) :
    (advanceYear env s).climate.floodProbability = s.climate.floodProbability := by
  unfold advanceYear; dsimp only
  rw [milestoneCheck_climate, distributeSubsidy_climate]
  simp [applyAnnualInflation]

theorem processEvent_day (env : Env) (e : PendingEvent) (s : GameState) :
    (processEvent env e s).day = s.day := by
  unfold processEvent; dsimp only; split_ifs <;> simp

theorem processEvent_seasonDay (env : Env) (e : PendingEvent) (s : GameState) :
    (processEvent env e s).seasonDay = s.seasonDay := by
  unfold processEvent; dsimp only; split_ifs <;> simp

theorem processEvent_season (env : Env) (e : PendingEvent) (s : GameState) :
    (processEvent env e s).season = s.season := by
  unfold processEvent; dsimp only; split_ifs <;> simp

theorem processEvent_year (env : Env) (e : PendingEvent) (s : GameState) :
    (processEvent env e s).year = s.year := by
  unfold processEvent; dsimp only; split_ifs <;> simp

theorem processEvent_pending_mono (env : Env) (e : PendingEvent) (s : GameState)
    (x : PendingEvent) (h : x ∈ s.pendingEvents) :
    x ∈ (processEvent env e s).pendingEvents := by
  unfold processEvent; dsimp only; split_ifs <;> simp_all

theorem foldl_pending_mono {α : Type} (f : GameState → α → GameState)
    (hf : ∀ st a x, x ∈ st.pendingEvents → x ∈ (f st a).pendingEvents) :
    ∀ (l : List α) (st : GameState) (x : PendingEvent),
      x ∈ st.pendingEvents → x ∈ (l.foldl f st).pendingEvents := by
  intro l
  induction l with
  | nil => intro st x h; exact h
  | cons a l ih => intro st x h; rw [List.foldl_cons]; exact ih _ _ (hf st a x h)

theorem processPendingEvents_day (env : Env) (s : GameState) :
    (processPendingEvents env s).day = s.day := by
  unfold processPendingEvents; dsimp only
  rw [foldl_field _ GameState.day (fun st a => processEvent_day env a st)]

theorem processPendingEvents_seasonDay (env : Env) (s : GameState) :
    (processPendingEvents env s).seasonDay = s.seasonDay := by
  unfold processPendingEvents; dsimp only
  rw [foldl_field _ GameState.seasonDay (fun st a => processEvent_seasonDay env a st)]

theorem processPendingEvents_season (env : Env) (s : GameState) :
    (processPendingEvents env s).season = s.season := by
  unfold processPendingEvents; dsimp only
  rw [foldl_field _ GameState.season (fun st a => processEvent_season env a st)]

theorem processPendingEvents_year (env : Env) (s : GameState) :
    (processPendingEvents env s).year = s.year := by
  unfold processPendingEvents; dsimp only
  rw [foldl_field _ GameState.year (fun st a => processEvent_year env a st)]

theorem processPendingEvents_mem (env : Env) (s : GameState) (x : PendingEvent)
    (h : x ∈ s.pendingEvents) (hd : x.day ≠ s.day) :
    x ∈ (processPendingEvents env s).pendingEvents := by
  unfold processPendingEvents; dsimp only
  refine List.mem_filter.mpr ⟨?_, by simp [hd]⟩
  exact foldl_pending_mono _ (fun st a y hy => processEvent_pending_mono env a st y hy) _ _ _ h

theorem summerCase_pending_mono (env : Env) (s : GameState) (x : PendingEvent)
    (h : x ∈ s.pendingEvents) : x ∈ (summerCase env s).pendingEvents := by
  unfold summerCase; dsimp only; split_ifs <;> simp_all [draw]

theorem winterCase_pending_mono (env : Env) (s : GameState) (x : PendingEvent)
    (h : x ∈ s.pendingEvents) : x ∈ (winterCase env s).pendingEvents := by
  unfold winterCase; dsimp only; split_ifs <;> simp_all [draw]

theorem springCase_pending_mono (env : Env) (s : GameState) (x : PendingEvent)
    (h : x ∈ s.pendingEvents) : x ∈ (springCase env s).pendingEvents := by
  unfold springCase; dsimp only; split_ifs <;> simp_all [draw]

theorem fallCase_pending_mono (env : Env) (s : GameState) (x : PendingEvent)
    (h : x ∈ s.pendingEvents) : x ∈ (fallCase env s).pendingEvents := by
  unfold fallCase; dsimp only; split_ifs <;> simp_all [draw]

theorem seasonSwitch_pending_mono (env : Env) (s : GameState) (x : PendingEvent)
    (h : x ∈ s.pendingEvents) : x ∈ (seasonSwitch env s).pendingEvents := by
  unfold seasonSwitch
  split_ifs
  · exact summerCase_pending_mono env s x h
  · exact winterCase_pending_mono env s x h
  · exact springCase_pending_mono env s x h
  · exact fallCase_pending_mono env s x h
  · exact h

theorem advanceSeason_pending_mono (env : Env) (s : GameState) (x : PendingEvent)
    (h : x ∈ s.pendingEvents) : x ∈ (advanceSeason env s).pendingEvents := by
  unfold advanceSeason; dsimp only
  rw [greenhouseCheck_pendingEvents]
  apply seasonSwitch_pending_mono
  rw [fluctuate_pendingEvents, addEvent_pendingEvents]
  exact h

theorem milestoneCheck_pending_mono (env : Env) (s : GameState) (x : PendingEvent)
    (h : x ∈ s.pendingEvents) : x ∈ (milestoneCheck env s).pendingEvents := by
  unfold milestoneCheck; dsimp only; split_ifs <;> simp_all [draw]

theorem advanceYear_pending_mono (env : Env) (s : GameState) (x : PendingEvent)
    (h : x ∈ s.pendingEvents) : x ∈ (advanceYear env s).pendingEvents := by
  unfold advanceYear; dsimp only
  apply milestoneCheck_pending_mono
  rw [distributeSubsidy_pendingEvents]
  simpa [applyAnnualInflation] using h

theorem ambientEventRoll_day (env : Env) (s : GameState) :
    (ambientEventRoll env s).day = s.day := by
  unfold ambientEventRoll; dsimp only
  split_ifs
  · rcases env.generateRandomEvent _ with _ | ev <;> simp [draw]
  · simp [draw]

theorem ambientEventRoll_seasonDay (env : Env) (s : GameState) :
    (ambientEventRoll env s).seasonDay = s.seasonDay := by
  unfold ambientEventRoll; dsimp only
  split_ifs
  · rcases env.generateRandomEvent _ with _ | ev <;> simp [draw]
  · simp [draw]

theorem ambientEventRoll_season (env : Env) (s : GameState) :
    (ambientEventRoll env s).season = s.season := by
  unfold ambientEventRoll; dsimp only
  split_ifs
  · rcases env.generateRandomEvent _ with _ | ev <;> simp [draw]
  · simp [draw]

theorem ambientEventRoll_year (env : Env) (s : GameState) :
    (ambientEventRoll env s).year = s.year := by
  unfold ambientEventRoll; dsimp only
  split_ifs
  · rcases env.generateRandomEvent _ with _ | ev <;> simp [draw]
  · simp [draw]

theorem ambientEventRoll_farmHealth (env : Env) (s : GameState) :
    (ambientEventRoll env s).farmHealth = s.farmHealth := by
  unfold ambientEventRoll; dsimp only
  split_ifs
  · rcases env.generateRandomEvent _ with _ | ev <;> simp [draw]
  · simp [draw]

theorem ambientEventRoll_grid (env : Env) (s : GameState) :
    (ambientEventRoll env s).grid = s.grid := by
  unfold ambientEventRoll; dsimp only
  split_ifs
  · rcases env.generateRandomEvent _ with _ | ev <;> simp [draw]
  · simp [draw]

theorem ambientEventRoll_waterReserve (env : Env) (s : GameState) :
    (ambientEventRoll env s).waterReserve = s.waterReserve := by
  unfold ambientEventRoll; dsimp only
  split_ifs
  · rcases env.generateRandomEvent _ with _ | ev <;> simp [draw]
  · simp [draw]

theorem ambientEventRoll_pending_mono (env : Env) (s : GameState) (x : PendingEvent)
    (h : x ∈ s.pendingEvents) : x ∈ (ambientEventRoll env s).pendingEvents := by
  unfold ambientEventRoll; dsimp only
  split_ifs
  · rcases env.generateRandomEvent _ with _ | ev <;> simp_all [draw]
  · simp_all [draw]

theorem testModeHook_day (s : GameState) : (testModeHook s).day = s.day := by
  unfold testModeHook runTestUpdate; split_ifs <;> simp

theorem testModeHook_seasonDay (s : GameState) : (testModeHook s).seasonDay = s.seasonDay := by
  unfold testModeHook runTestUpdate; split_ifs <;> simp

theorem testModeHook_season (s : GameState) : (testModeHook s).season = s.season := by
  unfold testModeHook runTestUpdate; split_ifs <;> simp

theorem testModeHook_year (s : GameState) : (testModeHook s).year = s.year := by
  unfold testModeHook runTestUpdate; split_ifs <;> simp

theorem testModeHook_farmHealth (s : GameState) : (testModeHook s).farmHealth = s.farmHealth := by
  unfold testModeHook runTestUpdate; split_ifs <;> simp

theorem testModeHook_grid (s : GameState) : (testModeHook s).grid = s.grid := by
  unfold testModeHook runTestUpdate; split_ifs <;> simp

theorem testModeHook_waterReserve (s : GameState) :
    (testModeHook s).waterReserve = s.waterReserve := by
  unfold testModeHook runTestUpdate; split_ifs <;> simp

theorem testModeHook_pendingEvents (s : GameState) :
    (testModeHook s).pendingEvents = s.pendingEvents := by
  unfold testModeHook runTestUpdate; split_ifs <;> simp

theorem recomputeFarmHealth_day (env : Env) (s : GameState) :
    (recomputeFarmHealth env s).day = s.day := rfl

theorem recomputeFarmHealth_seasonDay (env : Env) (s : GameState) :
    (recomputeFarmHealth env s).seasonDay = s.seasonDay := rfl

theorem recomputeFarmHealth_season (env : Env) (s : GameState) :
    (recomputeFarmHealth env s).season = s.season := rfl

theorem recomputeFarmHealth_year (env : Env) (s : GameState) :
    (recomputeFarmHealth env s).year = s.year := rfl

theorem recomputeFarmHealth_grid (env : Env) (s : GameState) :
    (recomputeFarmHealth env s).grid = s.grid := rfl

theorem recomputeFarmHealth_waterReserve (env : Env) (s : GameState) :
    (recomputeFarmHealth env s).waterReserve = s.waterReserve := rfl

theorem recomputeFarmHealth_farmHealth (env : Env) (s : GameState) :
    (recomputeFarmHealth env s).farmHealth = env.calculateFarmHealth s.grid s.waterReserve := rfl

theorem recomputeFarmHealth_pendingEvents (env : Env) (s : GameState) :
    (recomputeFarmHealth env s).pendingEvents = s.pendingEvents := rfl

theorem incrementClocks_day (s : GameState) : (incrementClocks s).day = s.day + 1 := rfl

theorem incrementClocks_seasonDay (s : GameState) :
    (incrementClocks s).seasonDay = s.seasonDay + 1 := rfl

theorem incrementClocks_season (s : GameState) : (incrementClocks s).season = s.season := rfl

theorem incrementClocks_year (s : GameState) : (incrementClocks s).year = s.year := rfl

theorem incrementClocks_pendingEvents (s : GameState) :
    (incrementClocks s).pendingEvents = s.pendingEvents := rfl

theorem seasonRolloverCheck_day (env : Env) (s : GameState) :
    (seasonRolloverCheck env s).day = s.day := by
  unfold seasonRolloverCheck; split_ifs <;> simp [advanceSeason_day]

theorem seasonRolloverCheck_seasonDay (env : Env) (s : GameState) :
    (seasonRolloverCheck env s).seasonDay = if s.seasonDay > 90 then 1 else s.seasonDay := by
  unfold seasonRolloverCheck; split_ifs <;> simp [advanceSeason_seasonDay]

theorem seasonRolloverCheck_season (env : Env) (s : GameState) :
    (seasonRolloverCheck env s).season
      = if s.seasonDay > 90 then nextSeason s.season else s.season := by
  unfold seasonRolloverCheck; split_ifs <;> simp [advanceSeason_season]

theorem seasonRolloverCheck_year (env : Env) (s : GameState) :
    (seasonRolloverCheck env s).year = s.year := by
  unfold seasonRolloverCheck; split_ifs <;> simp [advanceSeason_year]

theorem seasonRolloverCheck_pending_mono (env : Env) (s : GameState) (x : PendingEvent)
    (h : x ∈ s.pendingEvents) : x ∈ (seasonRolloverCheck env s).pendingEvents := by
  unfold seasonRolloverCheck
  split_ifs
  · exact advanceSeason_pending_mono env _ x h
  · exact h

theorem yearRolloverCheck_day (env : Env) (s : GameState) :
    (yearRolloverCheck env s).day = if s.day > 360 then 1 else s.day := by
  unfold yearRolloverCheck; split_ifs <;> simp [advanceYear_day]

theorem yearRolloverCheck_seasonDay (env : Env) (s : GameState) :
    (yearRolloverCheck env s).seasonDay = s.seasonDay := by
  unfold yearRolloverCheck; split_ifs <;> simp [advanceYear_seasonDay]

theorem yearRolloverCheck_season (env : Env) (s : GameState) :
    (yearRolloverCheck env s).season = s.season := by
  unfold yearRolloverCheck; split_ifs <;> simp [advanceYear_season]

theorem yearRolloverCheck_year (env : Env) (s : GameState) :
    (yearRolloverCheck env s).year = if s.day > 360 then s.year + 1 else s.year := by
  unfold yearRolloverCheck; split_ifs <;> simp [advanceYear_year]

theorem yearRolloverCheck_pending_mono (env : Env) (s : GameState) (x : PendingEvent)
    (h : x ∈ s.pendingEvents) : x ∈ (yearRolloverCheck env s).pendingEvents := by
  unfold yearRolloverCheck
  split_ifs
  · exact advanceYear_pending_mono env _ x h
  · exact h

theorem update_day (env : Env) (s : GameState) :
    (update env s).day = if s.day + 1 > 360 then 1 else s.day + 1 := by
  unfold update
  rw [testModeHook_day, ambientEventRoll_day, recomputeFarmHealth_day,
    processPendingEvents_day, yearRolloverCheck_day, seasonRolloverCheck_day,
    updateFarm_day, payDailyOverhead_day, incrementClocks_day]

theorem update_seasonDay (env : Env) (s : GameState) :
    (update env s).seasonDay = if s.seasonDay + 1 > 90 then 1 else s.seasonDay + 1 := by
  unfold update
  rw [testModeHook_seasonDay, ambientEventRoll_seasonDay, recomputeFarmHealth_seasonDay,
    processPendingEvents_seasonDay, yearRolloverCheck_seasonDay, seasonRolloverCheck_seasonDay,
    updateFarm_seasonDay, payDailyOverhead_seasonDay, incrementClocks_seasonDay]

theorem update_season (env : Env) (s : GameState) :
    (update env s).season
      = if s.seasonDay + 1 > 90 then nextSeason s.season else s.season := by
  unfold update
  rw [testModeHook_season, ambientEventRoll_season, recomputeFarmHealth_season,
    processPendingEvents_season, yearRolloverCheck_season, seasonRolloverCheck_season,
    updateFarm_seasonDay, updateFarm_season, payDailyOverhead_seasonDay, payDailyOverhead_season,
    incrementClocks_seasonDay, incrementClocks_season]

theorem update_year (env : Env) (s : GameState) :
    (update env s).year = if s.day + 1 > 360 then s.year + 1 else s.year := by
  unfold update
  rw [testModeHook_year, ambientEventRoll_year, recomputeFarmHealth_year,
    processPendingEvents_year, yearRolloverCheck_year, seasonRolloverCheck_day,
    seasonRolloverCheck_year, updateFarm_day, updateFarm_year, payDailyOverhead_day,
    payDailyOverhead_year, incrementClocks_day, incrementClocks_year]

theorem update_pending_mono (env : Env) (s : GameState) (x : PendingEvent)
    (h : x ∈ s.pendingEvents)
    (hd : x.day ≠ (if s.day + 1 > 360 then 1 else s.day + 1)) :
    x ∈ (update env s).pendingEvents := by
  unfold update
  rw [testModeHook_pendingEvents]
  apply ambientEventRoll_pending_mono
  rw [recomputeFarmHealth_pendingEvents]
  apply processPendingEvents_mem
  · apply yearRolloverCheck_pending_mono
    apply seasonRolloverCheck_pending_mono
    rw [updateFarm_pendingEvents, payDailyOverhead_pendingEvents, incrementClocks_pendingEvents]
    exact h
  · rw [yearRolloverCheck_day, seasonRolloverCheck_day, updateFarm_day,
      payDailyOverhead_day, incrementClocks_day]
    exact hd

/-! ## Claim theorems -/

/-- C4: within one tick (`update`) the side effects run in the strict order:
(1) day/seasonDay increments, (2) daily overhead, (3) grid update with
harvest-ready collection, (4) season rollover when seasonDay > 90, (5) year
rollover when day > 360, (6) pending-event resolution, (7) farmHealth
recomputation, (8) the 1% ambient-event roll (followed by the test-mode hook);
in particular overhead is charged before the grid update, and the final
`farmHealth` is the health function of the grid and water reserve as left by
event resolution. -/
theorem C4_update_step_order (env : Env) (s : GameState) :
    update env s
      = testModeHook (ambientEventRoll env (recomputeFarmHealth env (processPendingEvents env
          (yearRolloverCheck env (seasonRolloverCheck env (updateFarm env
            (payDailyOverhead (incrementClocks s))))))))
    ∧ (update env s).farmHealth
        = env.calculateFarmHealth (update env s).grid (update env s).waterReserve := by
  constructor
  · rfl
  · unfold update
    rw [testModeHook_farmHealth, ambientEventRoll_farmHealth, recomputeFarmHealth_farmHealth,
      testModeHook_grid, ambientEventRoll_grid, recomputeFarmHealth_grid,
      testModeHook_waterReserve, ambientEventRoll_waterReserve, recomputeFarmHealth_waterReserve]

/-- C5: across every tick the season only ever steps along the fixed cycle
Spring→Summer→Fall→Winter→Spring; `seasonDay` resets to 1 and the season
advances exactly when `seasonDay` exceeds 90; `day` resets to 1 and `year`
increments exactly when `day` exceeds 360; the two rollovers are independent
conditions on independent counters (both may fire in one tick). -/
theorem C5_clock_invariants (env : Env) (s : GameState) :
    ((update env s).season = s.season ∨ (update env s).season = nextSeason s.season)
    ∧ (if s.seasonDay + 1 > 90
        then (update env s).seasonDay = 1 ∧ (update env s).season = nextSeason s.season
        else (update env s).seasonDay = s.seasonDay + 1 ∧ (update env s).season = s.season)
    ∧ (if s.day + 1 > 360
        then (update env s).day = 1 ∧ (update env s).year = s.year + 1
        else (update env s).day = s.day + 1 ∧ (update env s).year = s.year) := by
  refine ⟨?_, ?_, ?_⟩
  · rw [update_season]; split_ifs
    · right; rfl
    · left; rfl
  · rw [update_season, update_seasonDay]; split_ifs <;> exact ⟨rfl, rfl⟩
  · rw [update_day, update_year]; split_ifs <;> exact ⟨rfl, rfl⟩

/-- C8 (amended): on every year transition `droughtProbability` and
`heatwaveProbability` each increase by exactly 0.005, while
`floodProbability` is left unchanged (it never drifts). -/
theorem C8_amended_climate_drift (env : Env) (s : GameState) :
    (advanceYear env s).climate.droughtProbability = s.climate.droughtProbability + 0.005
    ∧ (advanceYear env s).climate.heatwaveProbability = s.climate.heatwaveProbability + 0.005
    ∧ (advanceYear env s).climate.floodProbability = s.climate.floodProbability :=
  ⟨advanceYear_droughtProbability env s, advanceYear_heatwaveProbability env s,
    advanceYear_floodProbability env s⟩

/-- C8 counterexample: at the constructor state, `advanceYear` does not drift
`floodProbability` upward — it is unchanged, refuting "each of the three
climate probabilities drifts upward". -/
theorem C8_counterexample_flood_static :
    ¬ ((advanceYear env0 s0).climate.floodProbability > s0.climate.floodProbability) := by
  rw [advanceYear_floodProbability]
  exact lt_irrefl _

/-- C3: the two inflation mechanisms coexist: `applyAnnualInflation` (run once
inside every `advanceYear`) replaces `overheadCostPerCell` by
`round(overheadCostPerCell × (1 + rate))` in place, while the plant/irrigate/
fertilize costs are recomputed at action time as
`round(base × (1 + rate)^(year−1))` with bases `basePrice × 0.4`, 200 and 300;
concretely with rate 0.03 a basePrice-1000 crop costs 400 in year 1 and 424 in
year 3, and a successful `plantCrop` deducts exactly that planting cost. -/
theorem C3_dual_inflation :
    (∀ s : GameState, (applyAnnualInflation s).overheadCostPerCell
      = ((round (s.overheadCostPerCell * (1 + s.annualInflationRate)) : ℤ) : ℚ))
    ∧ (∀ (env : Env) (s : GameState), (advanceYear env s).overheadCostPerCell
      = ((round (s.overheadCostPerCell * (1 + s.annualInflationRate)) : ℤ) : ℚ))
    ∧ (∀ (s : GameState) (crop : Crop), plantingCostOf s crop
      = ((round (crop.basePrice * 0.4 * (1 + s.annualInflationRate) ^ (s.year - 1)) : ℤ) : ℚ))
    ∧ (∀ s : GameState, irrigationCostOf s
      = ((round (200 * (1 + s.annualInflationRate) ^ (s.year - 1)) : ℤ) : ℚ))
    ∧ (∀ s : GameState, fertilizeCostOf s
      = ((round (300 * (1 + s.annualInflationRate) ^ (s.year - 1)) : ℤ) : ℚ))
    ∧ plantingCostOf s0 cropB = 400
    ∧ plantingCostOf { s0 with year := 3 } cropB = 424
    ∧ (∀ (env : Env) (row col : ℕ) (cropId : String) (s : GameState) (crop : Crop),
        env.getCropById cropId = some crop → crop.id ≠ "empty" →
        ¬ s.balance < plantingCostOf s crop →
        (plantCrop env row col cropId s).2.balance = s.balance - plantingCostOf s crop) := by
  refine ⟨fun s => rfl, ?_, fun s crop => rfl, fun s => rfl, fun s => rfl, ?_, ?_, ?_⟩
  · intro env s
    rw [advanceYear_overheadCostPerCell]; rfl
  · norm_num [plantingCostOf, inflationMultiplier, jsRound, s0, cropB, round_eq]
  · norm_num [plantingCostOf, inflationMultiplier, jsRound, s0, cropB, round_eq]
  · intro env row col cropId s crop hsome hne hnb
    unfold plantCrop
    rw [hsome]
    dsimp only
    rw [if_neg hne, if_neg hnb]
    simp [setCell]

/-- C3 witness: planting the basePrice-1000 crop at the year-1 constructor
state deducts exactly its planting cost. -/
theorem C3_dual_inflation_witness :
    (plantCrop envP 0 0 "almonds" s0).2.balance = s0.balance - plantingCostOf s0 cropB :=
  C3_dual_inflation.2.2.2.2.2.2.2 envP 0 0 "almonds" s0 cropB rfl
    (by decide)
    (by norm_num [plantingCostOf, inflationMultiplier, jsRound, s0, cropB, round_eq])

/-- C6: after `processPendingEvents` runs, no pending event whose trigger day
equals the current day remains, whatever its type; and an event whose type is
none of the seven recognized tags is processed with no state change and no
notification (the `switch` falls through). -/
theorem C6_day_matching_removal (env : Env) (s : GameState) :
    (∀ e ∈ (processPendingEvents env s).pendingEvents, e.day ≠ s.day)
    ∧ (∀ (e : PendingEvent) (t : GameState),
        e.etype ∉ recognizedEventTypes → processEvent env e t = t) := by
  constructor
  · unfold processPendingEvents
    dsimp only
    intro e he
    have h := (List.mem_filter.mp he).2
    simpa using h
  · intro e t hne
    simp only [recognizedEventTypes, List.mem_cons, List.not_mem_nil, or_false, not_or] at hne
    obtain ⟨h1, h2, h3, h4, h5, h6, h7⟩ := hne
    simp [processEvent, h1, h2, h3, h4, h5, h6, h7]

/-- C6 witness: a future rain event survives today's processing (its day
differs from the current day), and the unrecognized `"locusts"` event is
dispatched as a perfect no-op. -/
theorem C6_day_matching_removal_witness :
    (⟨"rain", 5, 0, 0, "", false⟩ : PendingEvent).day ≠ sC6.day
    ∧ processEvent env0 eUnknown s0 = s0 := by
  constructor
  · exact (C6_day_matching_removal env0 sC6).1 ⟨"rain", 5, 0, 0, "", false⟩
      (by simp [processPendingEvents, sC6, s0, processEvent, eUnknown])
  · exact (C6_day_matching_removal env0 s0).2 eUnknown s0 (by simp [eUnknown, recognizedEventTypes])

/-- C10: when the drought (or heatwave) handler reports `skipped` on the
event's trigger day, the event log, pending-event collection, water reserve and
balance are all untouched (no continuation, no effect message, no "ended"
message), and the event is nevertheless removed by the end-of-tick filter. -/
theorem C10_skipped_weather (env : Env) (s : GameState) (e : PendingEvent)
    (h : (e.etype = "drought"
          ∧ (env.applyDroughtEvent e s.grid s.waterReserve s.researchedTechs).skipped = true)
       ∨ (e.etype = "heatwave"
          ∧ (env.applyHeatwaveEvent e s.grid s.waterReserve s.researchedTechs).skipped = true)) :
    (processEvent env e s).events = s.events
    ∧ (processEvent env e s).pendingEvents = s.pendingEvents
    ∧ (processEvent env e s).waterReserve = s.waterReserve
    ∧ (processEvent env e s).balance = s.balance
    ∧ (e.day = s.day → e ∉ (processPendingEvents env s).pendingEvents) := by
  have hremove : e.day = s.day → e ∉ (processPendingEvents env s).pendingEvents := by
    intro hd hmem
    unfold processPendingEvents at hmem
    dsimp only at hmem
    have := (List.mem_filter.mp hmem).2
    simp [hd] at this
  rcases h with ⟨he, hs⟩ | ⟨he, hs⟩ <;>
    refine ⟨?_, ?_, ?_, ?_, hremove⟩ <;> simp [processEvent, he, hs]

/-- C10 witness: a drought due today whose handler reports `skipped` leaves
log, queue, water and balance unchanged and is removed from the queue. -/
theorem C10_skipped_weather_witness :
    (processEvent envS eDrought360 s360).events = s360.events
    ∧ (processEvent envS eDrought360 s360).pendingEvents = s360.pendingEvents
    ∧ (processEvent envS eDrought360 s360).waterReserve = s360.waterReserve
    ∧ (processEvent envS eDrought360 s360).balance = s360.balance
    ∧ (eDrought360.day = s360.day
        → eDrought360 ∉ (processPendingEvents envS s360).pendingEvents) :=
  C10_skipped_weather envS s360 eDrought360 (Or.inl ⟨rfl, rfl⟩)

/-- C9: an unmitigated continuing drought or heatwave resolved on day 360
enqueues its continuation with trigger day 361; and any pending event with
trigger day 361
survives every future tick unconsumed — the current day never exceeds 360
again, so the event is never selected as active (never dispatched, never
removed, and the chain's "ended" notification is never reached). -/
theorem C9_orphaned_day361_event :
    (∀ (env : Env) (s : GameState) (e : PendingEvent),
      s.day = 360 →
      ((e.etype = "drought"
        ∧ (env.applyDroughtEvent e s.grid s.waterReserve s.researchedTechs).skipped = false
        ∧ (env.applyDroughtEvent e s.grid s.waterReserve s.researchedTechs).continueEvent = true)
       ∨ (e.etype = "heatwave"
        ∧ (env.applyHeatwaveEvent e s.grid s.waterReserve s.researchedTechs).skipped = false
        ∧ (env.applyHeatwaveEvent e s.grid s.waterReserve s.researchedTechs).continueEvent = true)) →
      ∃ e' ∈ (processEvent env e s).pendingEvents, e'.day = 361)
    ∧ (∀ (env : Env) (s : GameState) (e : PendingEvent) (n : ℕ),
      e ∈ s.pendingEvents → e.day = 361 → s.day ≤ 360 →
      e ∈ ((update env)^[n] s).pendingEvents
      ∧ ((update env)^[n] s).day ≤ 360
      ∧ e ∉ ((update env)^[n] s).pendingEvents.filter
          (fun x => x.day == ((update env)^[n] s).day)) := by
  constructor
  · intro env s e hday h
    rcases h with ⟨he, hs, hc⟩ | ⟨he, hs, hc⟩
    · simp only [processEvent, he, hs, hc]
      norm_num
      exact ⟨⟨"drought", s.day + 1,
        (env.applyDroughtEvent e s.grid s.waterReserve s.researchedTechs).nextDuration,
        (env.applyDroughtEvent e s.grid s.waterReserve s.researchedTechs).severity, "", false⟩,
        by simp, by simp [hday]⟩
    · simp only [processEvent, he, hs, hc]
      norm_num
      exact ⟨⟨"heatwave", s.day + 1,
        (env.applyHeatwaveEvent e s.grid s.waterReserve s.researchedTechs).nextDuration,
        0, "", false⟩,
        by simp, by simp [hday]⟩
  · intro env s e n
    induction n generalizing s with
    | zero =>
      intro hm hd hday
      refine ⟨hm, hday, ?_⟩
      intro hmem
      have := (List.mem_filter.mp hmem).2
      simp only [Function.iterate_zero, id] at this
      rw [hd] at this
      simp at this
      omega
    | succ n ih =>
      intro hm hd hday
      rw [Function.iterate_succ_apply]
      apply ih
      · apply update_pending_mono env s e hm
        rw [hd]
        split_ifs <;> omega
      · exact hd
      · rw [update_day]
        split_ifs <;> omega

/-- C9 witness: at day 360 a continuing drought's successor event carries
trigger day 361, a continuing heatwave's successor likewise, and a day-361
event pending at day 5 is still pending, never active, two ticks later. -/
theorem C9_orphaned_day361_event_witness :
    (∃ e' ∈ (processEvent envC eDrought360 s360).pendingEvents, e'.day = 361)
    ∧ (∃ e' ∈ (processEvent envC eHeat360 s360).pendingEvents, e'.day = 361)
    ∧ (e361 ∈ ((update env0)^[2] sOrphan).pendingEvents
       ∧ ((update env0)^[2] sOrphan).day ≤ 360
       ∧ e361 ∉ ((update env0)^[2] sOrphan).pendingEvents.filter
           (fun x => x.day == ((update env0)^[2] sOrphan).day)) :=
  ⟨C9_orphaned_day361_event.1 envC s360 eDrought360 rfl (Or.inl ⟨rfl, rfl, rfl⟩),
   C9_orphaned_day361_event.1 envC s360 eHeat360 rfl (Or.inr ⟨rfl, rfl, rfl⟩),
   C9_orphaned_day361_event.2 env0 sOrphan e361 2
     (List.mem_singleton.mpr rfl) rfl (by decide)⟩
theorem summerCase_members (env : Env) (t : GameState) (e : PendingEvent)
    (hd : ∀ d p, (env.scheduleDrought d p).etype = "drought")
    (hh : ∀ d, (env.scheduleHeatwave d).etype = "heatwave")
    (he : e ∈ (summerCase env t).pendingEvents) :
    e ∈ t.pendingEvents ∨ e.etype = "drought" ∨ e.etype = "heatwave" := by
  unfold summerCase at he
  dsimp only at he
  split_ifs at he <;>
    simp only [draw, List.mem_append, List.mem_singleton] at he
  · rcases he with (he | rfl) | rfl
    · exact Or.inl he
    · exact Or.inr (Or.inl (hd _ _))
    · exact Or.inr (Or.inr (hh _))
  · rcases he with he | rfl
    · exact Or.inl he
    · exact Or.inr (Or.inl (hd _ _))
  · rcases he with he | rfl
    · exact Or.inl he
    · exact Or.inr (Or.inr (hh _))
  · exact Or.inl he

theorem winterCase_members (env : Env) (t : GameState) (e : PendingEvent)
    (hf : ∀ d, (env.scheduleFrost d).etype = "frost")
    (he : e ∈ (winterCase env t).pendingEvents) :
    e ∈ t.pendingEvents ∨ e.etype = "frost" := by
  unfold winterCase at he
  dsimp only at he
  split_ifs at he <;>
    simp only [draw, addEvent_pendingEvents, List.mem_append, List.mem_singleton] at he <;>
    first
    | (rcases he with he | rfl
       · exact Or.inl he
       · exact Or.inr (hf _))
    | exact Or.inl he

theorem springCase_members (env : Env) (t : GameState) (e : PendingEvent)
    (hr : ∀ d, (env.scheduleRain d).etype = "rain")
    (he : e ∈ (springCase env t).pendingEvents) :
    e ∈ t.pendingEvents ∨ e.etype = "rain" := by
  unfold springCase at he
  dsimp only at he
  split_ifs at he <;>
    simp only [draw, addEvent_pendingEvents, List.mem_append, List.mem_singleton] at he <;>
    first
    | (rcases he with he | rfl
       · exact Or.inl he
       · exact Or.inr (hr _))
    | exact Or.inl he

theorem fallCase_members (env : Env) (t : GameState) (e : PendingEvent)
    (hr : ∀ d, (env.scheduleRain d).etype = "rain")
    (hh : ∀ d, (env.scheduleHeatwave d).etype = "heatwave")
    (he : e ∈ (fallCase env t).pendingEvents) :
    e ∈ t.pendingEvents ∨ e.etype = "rain" ∨ e.etype = "heatwave" := by
  unfold fallCase at he
  dsimp only at he
  split_ifs at he <;>
    simp only [draw, addEvent_pendingEvents, List.mem_append, List.mem_singleton] at he <;>
    first
    | (rcases he with (he | rfl) | rfl
       · exact Or.inl he
       · exact Or.inr (Or.inl (hr _))
       · exact Or.inr (Or.inr (hh _)))
    | (rcases he with he | rfl
       · exact Or.inl he
       · first
         | exact Or.inr (Or.inl (hr _))
         | exact Or.inr (Or.inr (hh _)))
    | exact Or.inl he

theorem seasonSwitch_members (env : Env) (t : GameState) (e : PendingEvent)
    (hd : ∀ d p, (env.scheduleDrought d p).etype = "drought")
    (hh : ∀ d, (env.scheduleHeatwave d).etype = "heatwave")
    (hf : ∀ d, (env.scheduleFrost d).etype = "frost")
    (hr : ∀ d, (env.scheduleRain d).etype = "rain")
    (he : e ∈ (seasonSwitch env t).pendingEvents) :
    e ∈ t.pendingEvents
    ∨ (t.season = "Summer" ∧ (e.etype = "drought" ∨ e.etype = "heatwave"))
    ∨ (t.season = "Winter" ∧ e.etype = "frost")
    ∨ (t.season = "Spring" ∧ e.etype = "rain")
    ∨ (t.season = "Fall" ∧ (e.etype = "rain" ∨ e.etype = "heatwave")) := by
  unfold seasonSwitch at he
  split_ifs at he with h1 h2 h3 h4
  · rcases summerCase_members env t e hd hh he with h | h
    · exact Or.inl h
    · exact Or.inr (Or.inl ⟨h1, h⟩)
  · rcases winterCase_members env t e hf he with h | h
    · exact Or.inl h
    · exact Or.inr (Or.inr (Or.inl ⟨h2, h⟩))
  · rcases springCase_members env t e hr he with h | h
    · exact Or.inl h
    · exact Or.inr (Or.inr (Or.inr (Or.inl ⟨h3, h⟩)))
  · rcases fallCase_members env t e hr hh he with h | h
    · exact Or.inl h
    · exact Or.inr (Or.inr (Or.inr (Or.inr ⟨h4, h⟩)))
  · exact Or.inl he


theorem fallCase_pendingEvents_rng (env : Env) (t : GameState)
    (h : t.rng = [0.9, 0.1, 0]) :
    (fallCase env t).pendingEvents = t.pendingEvents ++ [env.scheduleHeatwave t.day] := by
  unfold fallCase
  dsimp only
  simp only [draw, h]
  norm_num [jsFloor]

/-- C7 (amended): on each season change, seasonal seeding can only enqueue:
drought or heatwave when the new season is Summer, frost when it is Winter,
rain when it is Spring, and rain **or heatwave** when it is Fall (the Fall
branch also rolls a 20% heatwave) — no other event-type/season combination. -/
theorem C7_amended_seasonal_seeding (env : Env) (s : GameState)
    (hd : ∀ d p, (env.scheduleDrought d p).etype = "drought")
    (hh : ∀ d, (env.scheduleHeatwave d).etype = "heatwave")
    (hf : ∀ d, (env.scheduleFrost d).etype = "frost")
    (hr : ∀ d, (env.scheduleRain d).etype = "rain") :
    ∀ e ∈ (advanceSeason env s).pendingEvents,
      e ∈ s.pendingEvents
      ∨ (nextSeason s.season = "Summer" ∧ (e.etype = "drought" ∨ e.etype = "heatwave"))
      ∨ (nextSeason s.season = "Winter" ∧ e.etype = "frost")
      ∨ (nextSeason s.season = "Spring" ∧ e.etype = "rain")
      ∨ (nextSeason s.season = "Fall" ∧ (e.etype = "rain" ∨ e.etype = "heatwave")) := by
  intro e he
  unfold advanceSeason at he
  dsimp only at he
  rw [greenhouseCheck_pendingEvents] at he
  have hmem := seasonSwitch_members env _ e hd hh hf hr he
  rw [fluctuate_pendingEvents, addEvent_pendingEvents, fluctuate_season, addEvent_season] at hmem
  exact hmem

/-- C7 witness: the amended classification applied to the concrete Fall
transition below. -/
theorem C7_amended_seasonal_seeding_witness :
    scheduleHeatwaveModel 181 ∈ sFall.pendingEvents
    ∨ (nextSeason sFall.season = "Summer"
        ∧ ((scheduleHeatwaveModel 181).etype = "drought"
           ∨ (scheduleHeatwaveModel 181).etype = "heatwave"))
    ∨ (nextSeason sFall.season = "Winter" ∧ (scheduleHeatwaveModel 181).etype = "frost")
    ∨ (nextSeason sFall.season = "Spring" ∧ (scheduleHeatwaveModel 181).etype = "rain")
    ∨ (nextSeason sFall.season = "Fall"
        ∧ ((scheduleHeatwaveModel 181).etype = "rain"
           ∨ (scheduleHeatwaveModel 181).etype = "heatwave")) := by
  apply C7_amended_seasonal_seeding env0 sFall
    (fun d p => rfl) (fun d => rfl) (fun d => rfl) (fun d => rfl)
  have hfl : ∀ t : GameState, fluctuateMarketPrices env0 t = t := fun t => rfl
  have hadv : advanceSeason env0 sFall
      = greenhouseCheck (seasonSwitch env0
          (addEvent { sFall with season := nextSeason sFall.season }
            ("Season changed to " ++ nextSeason sFall.season) false)) := by
    unfold advanceSeason
    dsimp only
    rw [hfl]
  set s1 := addEvent { sFall with season := nextSeason sFall.season }
    ("Season changed to " ++ nextSeason sFall.season) false with hs1
  have hseason : s1.season = "Fall" := rfl
  have hswitch : seasonSwitch env0 s1 = fallCase env0 s1 := by
    unfold seasonSwitch
    rw [hseason, if_neg (by decide : ¬("Fall" = "Summer")),
      if_neg (by decide : ¬("Fall" = "Winter")), if_neg (by decide : ¬("Fall" = "Spring")),
      if_pos rfl]
  rw [hadv, greenhouseCheck_pendingEvents, hswitch, fallCase_pendingEvents_rng env0 s1 rfl]
  simp only [List.mem_append, List.mem_singleton]
  exact Or.inr rfl

/-- C7 counterexample: rolling from Summer into Fall with rain-roll 0.9 and
heatwave-roll 0.1, seasonal seeding enqueues a heatwave event while the new
season is Fall — refuting "rain is the only type seeded in Fall". -/
theorem C7_counterexample_fall_heatwave :
    (advanceSeason env0 sFall).season = "Fall"
    ∧ ∃ e ∈ (advanceSeason env0 sFall).pendingEvents, e.etype = "heatwave" := by
  have hfl : ∀ t : GameState, fluctuateMarketPrices env0 t = t := fun t => rfl
  have hadv : advanceSeason env0 sFall
      = greenhouseCheck (seasonSwitch env0
          (addEvent { sFall with season := nextSeason sFall.season }
            ("Season changed to " ++ nextSeason sFall.season) false)) := by
    unfold advanceSeason
    dsimp only
    rw [hfl]
  set s1 := addEvent { sFall with season := nextSeason sFall.season }
    ("Season changed to " ++ nextSeason sFall.season) false with hs1
  have hseason : s1.season = "Fall" := rfl
  have hswitch : seasonSwitch env0 s1 = fallCase env0 s1 := by
    unfold seasonSwitch
    rw [hseason, if_neg (by decide : ¬("Fall" = "Summer")),
      if_neg (by decide : ¬("Fall" = "Winter")), if_neg (by decide : ¬("Fall" = "Spring")),
      if_pos rfl]
  have hfall : (fallCase env0 s1).pendingEvents
      = s1.pendingEvents ++ [env0.scheduleHeatwave s1.day] :=
    fallCase_pendingEvents_rng env0 s1 rfl
  constructor
  · rw [advanceSeason_season]; rfl
  · rw [hadv, greenhouseCheck_pendingEvents, hswitch, hfall]
    exact ⟨env0.scheduleHeatwave s1.day, by simp, rfl⟩

theorem techPointsOf_eval :
    techPointsOf "drip_irrigation" = 15 ∧ techPointsOf "soil_sensors" = 10
    ∧ techPointsOf "no_till_farming" = 20 ∧ techPointsOf "precision_drones" = 15
    ∧ techPointsOf "renewable_energy" = 15 ∧ techPointsOf "greenhouse" = 10
    ∧ techPointsOf "drought_resistant" = 10 ∧ techPointsOf "ai_irrigation" = 10
    ∧ techPointsOf "silvopasture" = 20 :=
  ⟨rfl, rfl, rfl, rfl, rfl, rfl, rfl, rfl, rfl⟩

/-- C1 (amended): the sustainability `techScore` is the per-technology point
sum (20/20/15/15/15/10/10/10/10, counted when researched) normalized against
`sustainableTechs.length × 100 = 900` — not against the 125-point sum of the
entries — times 100, rounded; in particular with all nine sustainable
technologies researched, techScore = round(125/900 × 100) = 14. -/
theorem C1_amended_techScore :
    (∀ (env : Env) (s : GameState),
      (calculateSustainabilityScore env s).techScore
        = round (claimTechPoints s.researchedTechs * 100 / 900))
    ∧ (calculateSustainabilityScore env0 sAll9).techScore = 14 := by
  constructor
  · intro env s
    unfold calculateSustainabilityScore
    dsimp only
    congr 1
    simp only [sustainableTechs, List.map_cons, List.map_nil, List.sum_cons, List.sum_nil,
      hasTechnology, claimTechPoints, techPointsOf_eval.1, techPointsOf_eval.2.1,
      techPointsOf_eval.2.2.1, techPointsOf_eval.2.2.2.1, techPointsOf_eval.2.2.2.2.1,
      techPointsOf_eval.2.2.2.2.2.1, techPointsOf_eval.2.2.2.2.2.2.1,
      techPointsOf_eval.2.2.2.2.2.2.2.1, techPointsOf_eval.2.2.2.2.2.2.2.2]
    norm_num
    ring
  · norm_num [calculateSustainabilityScore, hasTechnology, sAll9, s0, sustainableTechs,
      techPointsOf_eval.1, techPointsOf_eval.2.1,
      techPointsOf_eval.2.2.1, techPointsOf_eval.2.2.2.1, techPointsOf_eval.2.2.2.2.1,
      techPointsOf_eval.2.2.2.2.2.1, techPointsOf_eval.2.2.2.2.2.2.1,
      techPointsOf_eval.2.2.2.2.2.2.2.1, techPointsOf_eval.2.2.2.2.2.2.2.2, round_eq]

/-- C1 counterexample: with all nine sustainable technologies researched the
techScore is 14, not 100 — the code normalizes by 9 × 100 = 900, not by the
125-point maximum the claim asserts. -/
theorem C1_counterexample_tech_normalization :
    (calculateSustainabilityScore env0 sAll9).techScore = 14
    ∧ (calculateSustainabilityScore env0 sAll9).techScore ≠ 100 := by
  have h : (calculateSustainabilityScore env0 sAll9).techScore = 14 := by
    norm_num [calculateSustainabilityScore, hasTechnology, sAll9, s0, sustainableTechs,
      techPointsOf_eval.1, techPointsOf_eval.2.1,
      techPointsOf_eval.2.2.1, techPointsOf_eval.2.2.2.1, techPointsOf_eval.2.2.2.2.1,
      techPointsOf_eval.2.2.2.2.2.1, techPointsOf_eval.2.2.2.2.2.2.1,
      techPointsOf_eval.2.2.2.2.2.2.2.1, techPointsOf_eval.2.2.2.2.2.2.2.2, round_eq]
  exact ⟨h, by rw [h]; decide⟩

theorem rejectsWithAlert_of (s : GameState) (m : String) :
    RejectsWithAlert s (false, addEvent s m true) :=
  ⟨rfl, rfl, rfl, rfl, rfl, m, rfl⟩

/-- C2 (amended): every failing validation precondition of the five player
actions returns `false` and mutates no simulation state; every one of them also
appends an alert describing the reason, **except** two silent paths — a
`plantCrop` with an unknown or empty crop id, and a `researchTechnology` with
an unknown or already-researched technology id — which return `false` without
logging anything. -/
theorem C2_amended_rejection_contract :
    (∀ (env : Env) (row col : ℕ) (cropId : String) (s : GameState),
      env.getCropById cropId = none → plantCrop env row col cropId s = (false, s))
    ∧ (∀ (env : Env) (row col : ℕ) (cropId : String) (s : GameState) (c : Crop),
      env.getCropById cropId = some c → c.id = "empty"
      → plantCrop env row col cropId s = (false, s))
    ∧ (∀ (env : Env) (row col : ℕ) (cropId : String) (s : GameState) (c : Crop),
      env.getCropById cropId = some c → c.id ≠ "empty" → s.balance < plantingCostOf s c
      → RejectsWithAlert s (plantCrop env row col cropId s))
    ∧ (∀ (env : Env) (row col : ℕ) (s : GameState),
      (getCell s row col).crop.id = "empty" → RejectsWithAlert s (irrigateCell env row col s))
    ∧ (∀ (env : Env) (row col : ℕ) (s : GameState),
      (getCell s row col).crop.id ≠ "empty" → (getCell s row col).irrigated = true
      → RejectsWithAlert s (irrigateCell env row col s))
    ∧ (∀ (env : Env) (row col : ℕ) (s : GameState),
      (getCell s row col).crop.id ≠ "empty" → (getCell s row col).irrigated = false
      → s.balance < irrigationCostOf s → RejectsWithAlert s (irrigateCell env row col s))
    ∧ (∀ (env : Env) (row col : ℕ) (s : GameState),
      (getCell s row col).crop.id = "empty" → RejectsWithAlert s (fertilizeCell env row col s))
    ∧ (∀ (env : Env) (row col : ℕ) (s : GameState),
      (getCell s row col).crop.id ≠ "empty" → (getCell s row col).fertilized = true
      → RejectsWithAlert s (fertilizeCell env row col s))
    ∧ (∀ (env : Env) (row col : ℕ) (s : GameState),
      (getCell s row col).crop.id ≠ "empty" → (getCell s row col).fertilized = false
      → s.balance < fertilizeCostOf s → RejectsWithAlert s (fertilizeCell env row col s))
    ∧ (∀ (env : Env) (row col : ℕ) (s : GameState),
      (getCell s row col).crop.id = "empty" → RejectsWithAlert s (harvestCell env row col s))
    ∧ (∀ (env : Env) (row col : ℕ) (s : GameState),
      (getCell s row col).crop.id ≠ "empty" → (getCell s row col).harvestReady = false
      → RejectsWithAlert s (harvestCell env row col s))
    ∧ (∀ (env : Env) (tid : String) (s : GameState),
      s.technologies.find? (fun t => t.id == tid) = none
      → researchTechnology env tid s = (false, s))
    ∧ (∀ (env : Env) (tid : String) (s : GameState) (t : Technology),
      s.technologies.find? (fun t => t.id == tid) = some t → t.researched = true
      → researchTechnology env tid s = (false, s))
    ∧ (∀ (env : Env) (tid : String) (s : GameState) (t : Technology),
      s.technologies.find? (fun t => t.id == tid) = some t → t.researched = false
      → env.checkTechPrerequisites t s.researchedTechs = false
      → RejectsWithAlert s (researchTechnology env tid s))
    ∧ (∀ (env : Env) (tid : String) (s : GameState) (t : Technology),
      s.technologies.find? (fun t => t.id == tid) = some t → t.researched = false
      → env.checkTechPrerequisites t s.researchedTechs = true → s.balance < t.cost
      → RejectsWithAlert s (researchTechnology env tid s)) := by
  refine ⟨?_, ?_, ?_, ?_, ?_, ?_, ?_, ?_, ?_, ?_, ?_, ?_, ?_, ?_, ?_⟩
  · intro env row col cropId s h
    unfold plantCrop
    rw [h]
  · intro env row col cropId s c hsome hid
    unfold plantCrop
    rw [hsome]
    dsimp only
    rw [if_pos hid]
  · intro env row col cropId s c hsome hid hlt
    unfold plantCrop
    rw [hsome]
    dsimp only
    rw [if_neg hid, if_pos hlt]
    exact rejectsWithAlert_of s _
  · intro env row col s h
    unfold irrigateCell
    dsimp only
    rw [if_pos h]
    exact rejectsWithAlert_of s _
  · intro env row col s h hirr
    unfold irrigateCell
    dsimp only
    rw [if_neg h, if_pos hirr]
    exact rejectsWithAlert_of s _
  · intro env row col s h hirr hlt
    unfold irrigateCell
    dsimp only
    rw [if_neg h, if_neg (by rw [hirr]; exact Bool.false_ne_true), if_pos hlt]
    exact rejectsWithAlert_of s _
  · intro env row col s h
    unfold fertilizeCell
    dsimp only
    rw [if_pos h]
    exact rejectsWithAlert_of s _
  · intro env row col s h hf
    unfold fertilizeCell
    dsimp only
    rw [if_neg h, if_pos hf]
    exact rejectsWithAlert_of s _
  · intro env row col s h hf hlt
    unfold fertilizeCell
    dsimp only
    rw [if_neg h, if_neg (by rw [hf]; exact Bool.false_ne_true), if_pos hlt]
    exact rejectsWithAlert_of s _
  · intro env row col s h
    unfold harvestCell
    dsimp only
    rw [if_pos h]
    exact rejectsWithAlert_of s _
  · intro env row col s h hr
    unfold harvestCell
    dsimp only
    rw [if_neg h, if_pos (by rw [hr]; exact Bool.false_ne_true)]
    exact rejectsWithAlert_of s _
  · intro env tid s h
    unfold researchTechnology
    rw [h]
  · intro env tid s t hfind hres
    unfold researchTechnology
    rw [hfind]
    dsimp only
    rw [if_pos hres]
  · intro env tid s t hfind hres hpre
    unfold researchTechnology
    rw [hfind]
    dsimp only
    rw [if_neg (by rw [hres]; exact Bool.false_ne_true),
      if_pos (by rw [hpre]; exact Bool.false_ne_true)]
    exact rejectsWithAlert_of s _
  · intro env tid s t hfind hres hpre hlt
    unfold researchTechnology
    rw [hfind]
    dsimp only
    rw [if_neg (by rw [hres]; exact Bool.false_ne_true),
      if_neg (by rw [hpre]; simp), if_pos hlt]
    exact rejectsWithAlert_of s _

/-- C2 witness: every rejection path of the amended contract exercised at a
concrete input — unknown and empty crop ids, an unaffordable planting, empty /
already-treated / unaffordable irrigation and fertilization targets, empty and
not-ready harvest targets, and unknown / researched / prerequisite-failing /
unaffordable research targets. -/
theorem C2_amended_rejection_contract_witness :
    plantCrop envP 0 0 "weird" s0 = (false, s0)
    ∧ plantCrop envP 0 0 "empty" s0 = (false, s0)
    ∧ RejectsWithAlert sPoor (plantCrop envP 0 0 "almonds" sPoor)
    ∧ RejectsWithAlert (sPlot defaultCell) (irrigateCell env0 0 0 (sPlot defaultCell))
    ∧ RejectsWithAlert (sPlot cellIrrigatedC) (irrigateCell env0 0 0 (sPlot cellIrrigatedC))
    ∧ RejectsWithAlert (sPlot cellPlanted) (irrigateCell env0 0 0 (sPlot cellPlanted))
    ∧ RejectsWithAlert (sPlot defaultCell) (fertilizeCell env0 0 0 (sPlot defaultCell))
    ∧ RejectsWithAlert (sPlot cellFertilizedC) (fertilizeCell env0 0 0 (sPlot cellFertilizedC))
    ∧ RejectsWithAlert (sPlot cellPlanted) (fertilizeCell env0 0 0 (sPlot cellPlanted))
    ∧ RejectsWithAlert (sPlot defaultCell) (harvestCell env0 0 0 (sPlot defaultCell))
    ∧ RejectsWithAlert (sPlot cellPlanted) (harvestCell env0 0 0 (sPlot cellPlanted))
    ∧ researchTechnology env0 "nope" s0 = (false, s0)
    ∧ researchTechnology env0 "drip_irrigation" sTechR = (false, sTechR)
    ∧ RejectsWithAlert sTechU (researchTechnology envNoPre "drip_irrigation" sTechU)
    ∧ RejectsWithAlert sTechU (researchTechnology env0 "drip_irrigation" sTechU) := by
  refine ⟨C2_amended_rejection_contract.1 envP 0 0 "weird" s0 rfl,
    C2_amended_rejection_contract.2.1 envP 0 0 "empty" s0 ⟨"empty", "Empty Plot", 0⟩ rfl rfl,
    C2_amended_rejection_contract.2.2.1 envP 0 0 "almonds" sPoor cropB rfl (by decide)
      (by norm_num [sPoor, s0, plantingCostOf, inflationMultiplier, jsRound, cropB, round_eq]),
    C2_amended_rejection_contract.2.2.2.1 env0 0 0 (sPlot defaultCell) rfl,
    C2_amended_rejection_contract.2.2.2.2.1 env0 0 0 (sPlot cellIrrigatedC) (by decide) rfl,
    C2_amended_rejection_contract.2.2.2.2.2.1 env0 0 0 (sPlot cellPlanted) (by decide) rfl
      (by norm_num [sPlot, s0, irrigationCostOf, inflationMultiplier, jsRound, round_eq]),
    C2_amended_rejection_contract.2.2.2.2.2.2.1 env0 0 0 (sPlot defaultCell) rfl,
    C2_amended_rejection_contract.2.2.2.2.2.2.2.1 env0 0 0 (sPlot cellFertilizedC)
      (by decide) rfl,
    C2_amended_rejection_contract.2.2.2.2.2.2.2.2.1 env0 0 0 (sPlot cellPlanted) (by decide) rfl
      (by norm_num [sPlot, s0, fertilizeCostOf, inflationMultiplier, jsRound, round_eq]),
    C2_amended_rejection_contract.2.2.2.2.2.2.2.2.2.1 env0 0 0 (sPlot defaultCell) rfl,
    C2_amended_rejection_contract.2.2.2.2.2.2.2.2.2.2.1 env0 0 0 (sPlot cellPlanted)
      (by decide) rfl,
    C2_amended_rejection_contract.2.2.2.2.2.2.2.2.2.2.2.1 env0 "nope" s0 rfl,
    C2_amended_rejection_contract.2.2.2.2.2.2.2.2.2.2.2.2.1 env0 "drip_irrigation" sTechR
      techR rfl rfl,
    C2_amended_rejection_contract.2.2.2.2.2.2.2.2.2.2.2.2.2.1 envNoPre "drip_irrigation"
      sTechU techU rfl rfl rfl,
    C2_amended_rejection_contract.2.2.2.2.2.2.2.2.2.2.2.2.2.2 env0 "drip_irrigation"
      sTechU techU rfl rfl rfl (by norm_num [sTechU, s0, techU])⟩

/-- C2 counterexample: two failing validations reject **silently** — planting
with an unknown crop id and researching an unknown technology id both return
`false` while appending nothing to the event log, refuting "appends an alert
entry describing the reason" for every failing precondition. -/
theorem C2_counterexample_silent_rejections :
    plantCrop env0 0 0 "nope" s0 = (false, s0)
    ∧ (plantCrop env0 0 0 "nope" s0).2.events = []
    ∧ researchTechnology env0 "locusts" s0 = (false, s0)
    ∧ (researchTechnology env0 "locusts" s0).2.events = [] :=
  ⟨rfl, rfl, rfl, rfl⟩
